import Mathlib

/-!
Verification of the agent-office backend (src/agents.py, src/main.py) against
its natural-language specification.

The development is a shallow embedding of the Python source:

* pure data manipulation becomes Lean functions on inductive data;
* the remote row store (Supabase over REST) is modelled at two levels:
  - `SupabaseClient.*` model the raw HTTP client operations of
    src/agents.py, parametrised by the outcome of the underlying
    `httpx` call (`HttpOutcome` / `HttpBodyOutcome`), so that the
    exception behaviour of each operation is visible;
  - the lifecycle flows (callback ingestion, completion linking, quest
    generation, phase-2 trigger) are modelled over `Db`, a pure
    in-memory state standing for the remote tables on the successful
    path, since those claims are about control flow and data, not
    transport failures;
* timestamps (`datetime.utcnow()` etc.) are opaque `Nat` clock values
  passed in by the caller;
* `await`ed calls are sequential composition; `asyncio.create_task`
  (fire-and-forget) effects are recorded in the emitted event trace in
  program order.
-/

set_option linter.unusedVariables false
set_option maxRecDepth 8000

namespace AgentOffice

/-- Python truthiness for an optional numeric id: `None` and `0` are falsy. -/
def optNatTruthy : Option Nat → Bool
  | none => false
  | some n => n != 0

/-- `a or b` for optional numeric ids with Python falsiness
(src/main.py line 308: `payload.get("taskId") or self._current_task_id`). -/
def pyOrId (a b : Option Nat) : Option Nat :=
  if optNatTruthy a then a else b

/-- A chat message as built by `StateManager` (role, display metadata,
content, timestamp).  The formatted time string is modelled as the `Nat`
clock value it is rendered from. -/
structure Msg where
  role : String
  name : String
  emoji : String
  color : String
  content : String
  time : Nat
  deriving Repr, DecidableEq

/-- `AgentState` dataclass of src/agents.py.  `last_status_change` is the
ISO timestamp string, modelled as an optional clock value (`none` is the
initial empty string). -/
structure AgentState where
  key : String
  id : Nat
  name : String
  role : String
  emoji : String
  color : String
  status : String := "idle"
  task : String := "Свободен"
  progress : Int := 0
  last_status_change : Option Nat := none
  deriving Repr, DecidableEq

/-- The dict produced by `AgentState.to_dict`. -/
structure AgentView where
  name : String
  emoji : String
  color : String
  status : String
  task : Option String
  progress : Int
  deriving Repr, DecidableEq

/-- `AgentState.to_dict` (src/agents.py lines 38-46). -/
def AgentState.to_dict (a : AgentState) : AgentView :=
  { name := a.key
    emoji := a.emoji
    color := a.color
    status := a.status
    task := if a.task = "Свободен" then none else some a.task
    progress := a.progress }

/-- The agent catalogue `AGENT_DEFS` (src/agents.py lines 14-21), as the
initial `AgentState` records built in `StateManager.__init__`. -/
def AGENT_DEFS : List AgentState :=
  [ { key := "manager",    id := 0, name := "Manager",    role := "Orchestrator",      emoji := "🎯", color := "#a78bfa" },
    { key := "researcher", id := 1, name := "Researcher", role := "Web Researcher",    emoji := "🔍", color := "#38bdf8" },
    { key := "writer",     id := 2, name := "Writer",     role := "Spec & Content",    emoji := "✍️", color := "#34d399" },
    { key := "coder",      id := 3, name := "Coder",      role := "Code Generator",    emoji := "💻", color := "#f472b6" },
    { key := "qa",         id := 5, name := "QA",         role := "Quality Assurance", emoji := "🛡️", color := "#f59e0b" },
    { key := "deployer",   id := 4, name := "Deployer",   role := "Publisher",         emoji := "🚀", color := "#fb923c" } ]

/-- Look up an agent by key in the catalogue list (`self.agents` dict). -/
def lookupAgent (agents : List AgentState) (key : String) : Option AgentState :=
  agents.find? (fun a => a.key == key)

/-- Replace the entry for `key` (mutation of `self.agents[key]`). -/
def replaceAgent (agents : List AgentState) (key : String) (a : AgentState) : List AgentState :=
  agents.map (fun b => if b.key == key then a else b)

/-- The capped chat-history append used at both append sites
(`StateManager.apply_callback` lines 301-303 and
`StateManager.add_user_message` lines 1036-1038):
`self.history.append(msg)` followed by
`if len(self.history) > 200: self.history.pop(0)`. -/
def appendCapped (history : List Msg) (m : Msg) : List Msg :=
  let h := history ++ [m]
  if h.length > 200 then h.drop 1 else h

/-- The user message record built by `StateManager.add_user_message`. -/
def addUserMessageMsg (content : String) (now : Nat) : Msg :=
  { role := "user", name := "Вы", emoji := "👤", color := "#6366f1",
    content := content, time := now }

-- ── Persistence gateway: raw HTTP client model (src/agents.py 50-119) ────────

/-- Outcome of an `httpx` call whose response body is never read:
either the transport raises (connect error / timeout), or a response with
some status arrives. -/
inductive HttpOutcome where
  | transportError
  | response (status : Nat)
  deriving Repr, DecidableEq

/-- Outcome of an `httpx` call whose body may be parsed with `r.json()`:
`none` body stands for a body on which `r.json()` raises. -/
inductive HttpBodyOutcome (α : Type) where
  | transportError
  | response (status : Nat) (body : Option α)
  deriving Repr, DecidableEq

/-- An exception escaping a `SupabaseClient` operation. -/
inductive GatewayError where
  | network
  | parse
  deriving Repr, DecidableEq

namespace SupabaseClient

/-- `SupabaseClient.insert` (lines 60-66): posts and ignores the response;
only a transport failure raises. -/
def insert (r : HttpOutcome) : Except GatewayError Unit :=
  match r with
  | .transportError => .error .network
  | .response _ => .ok ()

/-- `SupabaseClient.insert_returning` (lines 68-81): on 200/201 parses the
body (a parse failure raises); otherwise logs and returns `[]`. -/
def insert_returning (α : Type) (r : HttpBodyOutcome (List α)) : Except GatewayError (List α) :=
  match r with
  | .transportError => .error .network
  | .response s body =>
    if s = 200 ∨ s = 201 then
      match body with
      | some rows => .ok rows
      | none => .error .parse
    else .ok []

/-- `SupabaseClient.select` (lines 83-90):
`return r.json() if r.status_code == 200 else []`. -/
def select (α : Type) (r : HttpBodyOutcome (List α)) : Except GatewayError (List α) :=
  match r with
  | .transportError => .error .network
  | .response s body =>
    if s = 200 then
      match body with
      | some rows => .ok rows
      | none => .error .parse
    else .ok []

/-- `SupabaseClient.update` (lines 92-100): patch, response ignored. -/
def update (r : HttpOutcome) : Except GatewayError Unit :=
  match r with
  | .transportError => .error .network
  | .response _ => .ok ()

/-- `SupabaseClient.upsert` (lines 102-110): like `insert_returning`
without the log line. -/
def upsert (α : Type) (r : HttpBodyOutcome (List α)) : Except GatewayError (List α) :=
  match r with
  | .transportError => .error .network
  | .response s body =>
    if s = 200 ∨ s = 201 then
      match body with
      | some rows => .ok rows
      | none => .error .parse
    else .ok []

/-- `SupabaseClient.delete` (lines 112-119): delete, response ignored. -/
def delete (r : HttpOutcome) : Except GatewayError Unit :=
  match r with
  | .transportError => .error .network
  | .response _ => .ok ()

end SupabaseClient

/-- The `try/except` wrapper of `StateManager.get_tasks` (src/agents.py
230-241) around `SupabaseClient.select`, with the row type abstract and
the network outcome passed in: with no db it returns `[]` without any
network call; with a db it returns the selected rows, and catches any
gateway exception, returning `[]`. -/
def StateManager.get_tasks_net (α : Type) (hasDb : Bool)
    (r : HttpBodyOutcome (List α)) : List α :=
  if hasDb then
    match SupabaseClient.select α r with
    | .ok rows => rows
    | .error _ => []
  else []

-- ── String helpers mirroring Python primitives ───────────────────────────────

/-- Substring containment (Python `needle in hay`), as list-infix of the
character data. -/
def strContains (needle hay : String) : Prop :=
  needle.data <:+: hay.data

instance (needle hay : String) : Decidable (strContains needle hay) :=
  List.decidableInfix needle.data hay.data

/-- Boolean substring containment, used where the source branches on it. -/
def strContainsB (needle hay : String) : Bool :=
  decide (strContains needle hay)

/-- Python `str.strip()` (leading/trailing whitespace removed), at the
character-list level so that it evaluates in the kernel. -/
def pyStrip (s : String) : String :=
  String.mk (((s.data.dropWhile Char.isWhitespace).reverse.dropWhile
    Char.isWhitespace).reverse)

/-- Python slice `s[:n]` (by characters). -/
def pyTake (s : String) (n : Nat) : String := String.mk (s.data.take n)

/-- Python `str.lower()`; ASCII case mapping (the keyword lists it feeds
are already lower-case). -/
def pyLower (s : String) : String := String.mk (s.data.map Char.toLower)

/-- Python `str.capitalize()` (first char upper, rest lower); ASCII case
mapping suffices for the agent keys it is applied to. -/
def pyCapitalize (s : String) : String :=
  match s.data with
  | [] => ""
  | c :: cs => String.mk (c.toUpper :: cs.map Char.toLower)

/-- Python `sep.join(parts)`. -/
def pyJoin (sep : String) : List String → String
  | [] => ""
  | [x] => x
  | x :: xs => x ++ sep ++ pyJoin sep xs

/-- Python dict insertion `d[k] = v` on an insertion-ordered association
list: overwriting an existing key keeps its original position. -/
def dictInsert (l : List (String × String)) (k v : String) : List (String × String) :=
  if l.any (fun p => p.1 == k) then
    l.map (fun p => if p.1 == k then (k, v) else p)
  else l ++ [(k, v)]

/-- `_safe_int` (src/main.py 117-121): `int(value)` with a fallback default.
The argument carries the conversion outcome (`.error` for a value on which
`int()` raises). -/
def safe_int (value : Except Unit Int) (default : Int) : Int :=
  match value with
  | .ok n => n
  | .error _ => default

-- ── Structured result (src/main.py 26-98) ────────────────────────────────────

/-- `AGENT_COST_ESTIMATES` (tokens_in, tokens_out, time_sec). -/
def AGENT_COST_ESTIMATES : List (String × Nat × Nat × Nat) :=
  [ ("researcher", 4000, 2000, 30),
    ("writer",     5000, 4000, 45),
    ("coder",      6000, 8000, 60),
    ("qa",         4000, 2000, 30),
    ("deployer",      0,    0, 30),
    ("manager",    3000, 1500, 20) ]

def costOf (agent : String) : Nat × Nat × Nat :=
  ((AGENT_COST_ESTIMATES.find? (fun p => p.1 == agent)).map Prod.snd).getD (0, 0, 0)

/-- `AGENT_SECTION_NAMES`. -/
def AGENT_SECTION_NAMES : List (String × String) :=
  [ ("researcher", "Исследование и анализ"),
    ("writer",     "Контент / Спецификация"),
    ("coder",      "Код и реализация"),
    ("qa",         "Контроль качества"),
    ("deployer",   "Деплой и публикация") ]

def sectionName (agent : String) (default : String) : String :=
  ((AGENT_SECTION_NAMES.find? (fun p => p.1 == agent)).map Prod.snd).getD default

/-- One accumulated worker result (`_task_results` entry, src/main.py 342-346). -/
structure TaskRes where
  agent : String
  result : String
  timestamp : Nat
  deriving Repr, DecidableEq

/-- One element of the `steps` list in the structured result. -/
structure StepRow where
  agent : String
  label : String
  result : String
  tokens_in : Nat
  tokens_out : Nat
  time_sec : Nat
  deriving Repr, DecidableEq

/-- One entry of the callback's `user_actions` list: either a plain string
or a dict with `text` / `input_required`. -/
inductive UserAction where
  | str (s : String)
  | obj (text : String) («input_required» : Bool)
  deriving Repr, DecidableEq

/-- The `version: 2` JSON envelope returned by `_build_structured_result`.
`total_cost_micro` is the numerator of the cost estimate in USD-millionths
(the source divides by 1_000_000 and rounds; the float rendering is
presentation-only and never read back). -/
structure StructuredResult where
  title : String
  summary : String
  steps : List StepRow
  user_actions : List UserAction
  total_cost_micro : Nat
  total_tokens : Nat
  total_time_sec : Nat
  agents_count : Nat
  deriving Repr, DecidableEq

/-- `_build_structured_result` (src/main.py 46-98). -/
def build_structured_result (task_title : String) (manager_summary : String)
    (worker_results : List TaskRes) (user_actions : List UserAction) :
    StructuredResult :=
  let steps : List StepRow := worker_results.map (fun r =>
    let est := costOf r.agent
    { agent := r.agent
      label := sectionName r.agent (pyCapitalize r.agent)
      result := r.result
      tokens_in := est.1
      tokens_out := est.2.1
      time_sec := est.2.2 })
  let all_agents := "manager" :: steps.map StepRow.agent
  let total_cost_micro := (all_agents.map (fun a =>
    let est := costOf a
    est.1 * 3 + est.2.1 * 15)).sum
  let mgr := costOf "manager"
  let total_tokens := (steps.map (fun s => s.tokens_in + s.tokens_out)).sum + mgr.1 + mgr.2.1
  let total_time := (steps.map StepRow.time_sec).sum + mgr.2.2
  let summary :=
    if manager_summary = "" ∧ worker_results ≠ [] then
      let agents_used := (worker_results.filter (fun r => r.agent ≠ "qa")).map
        (fun r => sectionName r.agent r.agent)
      "Задача выполнена. Агенты: " ++ pyJoin ", " agents_used ++ "."
    else manager_summary
  { title := task_title
    summary := summary
    steps := steps
    user_actions := user_actions
    total_cost_micro := total_cost_micro
    total_tokens := total_tokens
    total_time_sec := total_time
    agents_count := all_agents.length }

/-- The `result` text attached to a scheduled task: either the dump of a
`version: 2` structured result (always what the idle branch produces), or
a legacy plain string.  For a raw string, `parseable` records whether
`json.loads` succeeds on it (yielding some non-`version: 2` value) or
raises — `_notify_user_task_done` branches on exactly that. -/
inductive ResultPayload where
  | structured (s : StructuredResult)
  | raw (s : String) (parseable : Bool)
  deriving Repr, DecidableEq

/-- `combined.strip()` truthiness check of the idle branch: a JSON object
dump is never blank, a raw string is blank iff it strips to empty. -/
def ResultPayload.isBlank : ResultPayload → Bool
  | .structured _ => false
  | .raw s _ => pyStrip s == ""

-- ── In-memory model of the remote tables (successful-path semantics) ─────────

/-- A `tasks` (pipeline task) row. -/
structure TaskRow where
  id : Nat
  content : String
  status : String
  summary : String
  created_at : Nat
  finished_at : Option Nat := none
  deriving Repr, DecidableEq

/-- A `scheduled_tasks` row. -/
structure SchedRow where
  id : Nat
  title : String
  horizon : String := "now"
  priority : String := "normal"
  status : String
  result : Option ResultPayload := none
  review_status : Option String := none
  assigned_agent : Option String := none
  linked_task_id : Option Nat := none
  created_at : Nat
  updated_at : Option Nat := none
  deriving Repr, DecidableEq

/-- The JSON `data` payload attached to a quest.  Only the keys the source
reads or writes are modelled; `none` stands for an absent key. -/
structure QuestData where
  action : Option String := none
  task_id : Option Nat := none
  action_index : Option Nat := none
  total_actions : Option Nat := none
  input_required : Bool := false
  input_label : Option String := none
  input_placeholder : Option String := none
  is_clarification : Bool := false
  original_question : Option String := none
  deriving Repr, DecidableEq

/-- A completed quest's `response` value: user input is either a plain
string, or a dict whose `response` key is extracted (src/main.py 1506-1507). -/
inductive QResp where
  | str (s : String)
  | dict (inner : Option String)
  deriving Repr, DecidableEq

/-- A `quests` row. -/
structure QuestRow where
  id : Nat
  title : String
  description : String
  quest_type : String
  agent : String
  status : String
  xp_reward : Int
  data : QuestData
  response : Option QResp := none
  created_at : Nat
  completed_at : Option Nat := none
  deriving Repr, DecidableEq

/-- An `ideas` row. -/
structure IdeaRow where
  id : Nat
  content : String
  status : String
  plan_text : Option String := none
  result : Option ResultPayload := none
  created_at : Nat
  deriving Repr, DecidableEq

/-- The remote row store on its successful path: the tables the verified
flows touch, plus generated-id counters for `insert ... returning`. -/
structure Db where
  tasks : List TaskRow := []
  scheduled : List SchedRow := []
  quests : List QuestRow := []
  ideas : List IdeaRow := []
  nextTaskId : Nat := 1
  nextQuestId : Nat := 1
  nextErrorId : Nat := 1
  deriving Repr, DecidableEq

/-- `order=created_at.desc` + `limit=1`: the most recently created row of a
filtered list (first listed wins ties, standing for the store's unspecified
tie order). -/
def mostRecentBy (α : Type) (created : α → Nat) (rows : List α) : Option α :=
  rows.foldl (fun acc r =>
    match acc with
    | none => some r
    | some a => if created r > created a then some r else some a) none

/-- Update of a `scheduled_tasks` row: the fields the source ever writes
(`none` = key absent from the update dict). -/
structure SchedUpdate where
  status : Option String := none
  result : Option ResultPayload := none
  review_status : Option String := none
  linked_task_id : Option Nat := none
  deriving Repr, DecidableEq

/-- Apply a `scheduled_tasks` PATCH matched on `id`
(`StateManager.update_scheduled_task`, which also stamps `updated_at`). -/
def Db.updateScheduled (db : Db) (taskId : Nat) (u : SchedUpdate) (now : Nat) : Db :=
  { db with scheduled := db.scheduled.map (fun r =>
      if r.id = taskId then
        { r with
          status := u.status.getD r.status
          result := match u.result with | some v => some v | none => r.result
          review_status := match u.review_status with | some v => some v | none => r.review_status
          linked_task_id := match u.linked_task_id with | some v => some v | none => r.linked_task_id
          updated_at := some now }
      else r) }

/-- Apply a `tasks` PATCH matched on `id` setting status and summary
(and optionally `finished_at`). -/
def Db.updateTask (db : Db) (taskId : Nat) (status summary : String)
    (finished : Option Nat) : Db :=
  { db with tasks := db.tasks.map (fun r =>
      if r.id = taskId then
        { r with status := status, summary := summary,
                 finished_at := match finished with | some v => some v | none => r.finished_at }
      else r) }

/-- Apply a `quests` PATCH matched on `id` (`StateManager.complete_quest`). -/
def Db.completeQuest (db : Db) (questId : Nat) (response : Option QResp) (now : Nat) : Db :=
  { db with quests := db.quests.map (fun r =>
      if r.id = questId then
        { r with status := "completed", completed_at := some now,
                 response := match response with | some v => some v | none => r.response }
      else r) }

/-- Insert a quest (`StateManager.create_quest`, src/agents.py 927-947):
returns the inserted row with its generated id. -/
def Db.insertQuest (db : Db) (title description quest_type agent : String)
    (xp : Int) (data : QuestData) (now : Nat) : Db × QuestRow :=
  let q : QuestRow :=
    { id := db.nextQuestId, title := title, description := description,
      quest_type := quest_type, agent := agent, status := "pending",
      xp_reward := xp, data := data, created_at := now }
  ({ db with quests := db.quests ++ [q], nextQuestId := db.nextQuestId + 1 }, q)

/-- Insert a pipeline task (`StateManager.save_task`): status `processing`,
returns the generated id. -/
def Db.insertTask (db : Db) (content : String) (now : Nat) : Db × Nat :=
  let t : TaskRow :=
    { id := db.nextTaskId, content := content, status := "processing",
      summary := "", created_at := now }
  ({ db with tasks := db.tasks ++ [t], nextTaskId := db.nextTaskId + 1 }, t.id)

/-- `ideas` PATCH matched on an id-filter *string*.  `_link_result_to_idea`
passes the already-wrapped filter value `"eq.<id>"` to
`SupabaseClient.update`, which wraps it again into `eq.eq.<id>` — an
invalid PostgREST filter, so no row ever matches; a plain integer id (as
every other caller passes) matches normally.  The match value is therefore
either a proper id or a pre-wrapped string. -/
inductive IdFilter where
  | intId (n : Nat)
  | strId (s : String)
  deriving Repr, DecidableEq

def idFilterMatches : IdFilter → Nat → Bool
  | .intId n, rid => n == rid
  | .strId _, _ => false

/-- Apply an `ideas` PATCH (status/result). -/
def Db.updateIdea (db : Db) (filter : IdFilter) (status : Option String)
    (result : Option ResultPayload) : Db :=
  { db with ideas := db.ideas.map (fun r =>
      if idFilterMatches filter r.id then
        { r with status := status.getD r.status,
                 result := match result with | some v => some v | none => r.result }
      else r) }

-- ── Callback payload and event trace ─────────────────────────────────────────

/-- The raw `user_actions` callback field: either a JSON-encoded string
(whose `json.loads` outcome is carried: `none` = raises) or an actual
array. -/
inductive UARaw where
  | jsonStr (parsed : Option (List UserAction))
  | arr (l : List UserAction)
  deriving Repr, DecidableEq

/-- `payload.get("user_actions", "[]")` followed by the parse at
src/main.py 361-365. -/
def parseUserActions : Option UARaw → List UserAction
  | none => []
  | some (.jsonStr none) => []
  | some (.jsonStr (some l)) => l
  | some (.arr l) => l

/-- The `lessons_learned` field: a string or an array of strings. -/
inductive Lessons where
  | lstr (s : String)
  | larr (l : List String)
  deriving Repr, DecidableEq

def lessonsTruthy : Option Lessons → Bool
  | none => false
  | some (.lstr s) => s != ""
  | some (.larr l) => !l.isEmpty

def lessonsList : Option Lessons → List String
  | none => []
  | some (.lstr s) => [s]
  | some (.larr l) => l

deriving instance DecidableEq for Except

/-- The JSON body POSTed to `/api/n8n/callback`.  Every field is optional;
`progress` and `xp_reward` carry the outcome of `int()` conversion
(`.error` = a value on which `int()` raises). -/
structure Payload where
  agent : Option String := none
  status : Option String := none
  task : Option String := none
  progress : Option (Except Unit Int) := none
  message : Option String := none
  title : Option String := none
  user_actions : Option UARaw := none
  lessons_learned : Option Lessons := none
  error_type : Option String := none
  error_detail : Option String := none
  quest_type : Option String := none
  quest_title : Option String := none
  quest_data : Option QuestData := none
  xp_reward : Option (Except Unit Int) := none
  taskId : Option Nat := none
  deriving Repr, DecidableEq

/-- One observable effect, in program order.  WebSocket broadcasts are
`agentUpdate`, `chat`, `tasksUpdate`, `taskCompleted`, `questCreated`,
`phase2AgentUpdate`; remote-table writes are `updateScheduled`,
`updateTaskRow`, `updateIdeaRow`, `saveMessage`, `diaryEntry`,
`saveMemory`, `saveErrorEv`; the rest are Telegram notifications, the
reflection background call, and outbound workflow-engine POSTs.
(`taskCompleted` omits the presentation-only `result_preview` string.) -/
inductive Ev where
  | agentUpdate (a : AgentView)
  | chat (m : Msg)
  | tasksUpdate
  | taskCompleted (taskId : Nat) (title : String) (assigned : Option String)
  | questCreated (q : QuestRow)
  | updateScheduled (taskId : Nat) (u : SchedUpdate)
  | updateTaskRow (taskId : Nat) (status : String) (summary : String)
  | updateIdeaRow (filter : IdFilter)
  | saveMessage (m : Msg)
  | diaryEntry (agent etype content : String)
  | saveMemory (agent content : String)
  | saveErrorEv (agent etype detail : String)
  | autoReflect (errorId : Nat)
  | tgNotify (text : String)
  | tgNotifyQuest (questId : Nat)
  | tgAgentProgress (agent task : String)
  | phase2AgentUpdate
  | postWebhook (task : String) (taskId : Option Nat)
  deriving Repr, DecidableEq

-- ── StateManager state and operations used by the flows ──────────────────────

/-- The mutable fields of `StateManager` (src/agents.py 123-137). -/
structure SM where
  agents : List AgentState := AGENT_DEFS
  history : List Msg := []
  currentTaskId : Option Nat := none
  currentIdeaId : Option Nat := none
  db : Option Db := none
  deriving Repr, DecidableEq

/-- `StateManager.save_task` (189-202): insert a `processing` pipeline task
and return its generated id; `None` without a db. -/
def StateManager.save_task (db : Option Db) (content : String) (now : Nat) :
    Option Db × Option Nat :=
  match db with
  | none => (none, none)
  | some d =>
    let (d2, tid) := d.insertTask content now
    (some d2, some tid)

/-- `StateManager.finish_task` (204-214). -/
def StateManager.finish_task (db : Option Db) (taskId : Option Nat)
    (summary : String) (now : Nat) : Option Db × List Ev :=
  match db, taskId with
  | some d, some tid =>
    if tid != 0 then
      (some (d.updateTask tid "done" (pyTake summary 500) (some now)),
       [Ev.updateTaskRow tid "done" (pyTake summary 500)])
    else (some d, [])
  | db, _ => (db, [])

/-- `StateManager._finish_latest_processing` (216-228): mark the most
recent `processing` pipeline task done. -/
def StateManager.finish_latest_processing (d : Db) (summary : String) (now : Nat) :
    Db × List Ev :=
  match mostRecentBy TaskRow TaskRow.created_at
      (d.tasks.filter (fun t => t.status == "processing")) with
  | some t =>
    if t.id != 0 then
      let r := StateManager.finish_task (some d) (some t.id) summary now
      (r.1.getD d, r.2)
    else (d, [])
  | none => (d, [])

/-- `StateManager.finish_idea` (375-384). -/
def StateManager.finish_idea (db : Option Db) (ideaId : Nat) (result : String) :
    Option Db × List Ev :=
  match db with
  | none => (none, [])
  | some d =>
    (some (d.updateIdea (.intId ideaId) (some "done") (some (.raw (pyTake result 300) true))),
     [Ev.updateIdeaRow (.intId ideaId)])

/-- `StateManager.create_quest` (927-947): `None` without a db; otherwise
the inserted row (successful-path semantics of `insert_returning`). -/
def StateManager.create_quest (db : Option Db) (title description quest_type agent : String)
    (xp : Int) (data : Option QuestData) (now : Nat) : Option Db × Option QuestRow :=
  match db with
  | none => (none, none)
  | some d =>
    let (d2, q) := d.insertQuest title description quest_type agent xp (data.getD {}) now
    (some d2, some q)

/-- `StateManager.complete_quest` (965-979). -/
def StateManager.complete_quest (db : Option Db) (questId : Nat)
    (response : Option QResp) (now : Nat) : Option Db × Bool :=
  match db with
  | none => (none, false)
  | some d => (some (d.completeQuest questId response now), true)

/-- `StateManager.update_scheduled_task` (914-923). -/
def StateManager.update_scheduled_task (db : Option Db) (taskId : Nat)
    (u : SchedUpdate) (now : Nat) : Option Db × Bool :=
  match db with
  | none => (none, false)
  | some d => (some (d.updateScheduled taskId u now), true)

/-- The status/task/progress field updates of `apply_callback`
(src/agents.py 278-288): status and task overwrite when present, the task
is truncated to 120 characters, and a `progress` value on which `int()`
raises is ignored. -/
def updatedAgent (p : Payload) (now : Nat) (a0 : AgentState) : AgentState :=
  let a1 := match p.status with
    | some s => { a0 with status := s, last_status_change := some now }
    | none => a0
  let a2 := match p.task with
    | some t => { a1 with task := pyTake t 120 }
    | none => a1
  match p.progress with
  | some (.ok n) => { a2 with progress := n }
  | _ => a2

/-- The chat-message branch of `apply_callback` (src/agents.py 292-305):
a non-empty stripped message is appended to the capped history, saved
fire-and-forget when a db is configured, and broadcast. -/
def applyMsgBranch (p : Payload) (now : Nat) (key : String) (a3 : AgentState)
    (sm1 : SM) : SM × List Ev :=
  let msgStr := pyStrip (p.message.getD "")
  if msgStr != "" then
    let m : Msg := { role := key, name := a3.name, emoji := a3.emoji,
                     color := a3.color, content := msgStr, time := now }
    ({ sm1 with history := appendCapped sm1.history m },
     (if sm1.db.isSome then [Ev.saveMessage m] else []) ++ [Ev.chat m])
  else (sm1, [])

/-- The agent-error branch of `apply_callback` (src/agents.py 311-320):
`status == "error"` with a truthy task id and a db marks the pipeline
task errored and broadcasts a tasks update. -/
def applyErrBranch (p : Payload) (taskId : Option Nat) (sm2 : SM) : SM × List Ev :=
  match p.status, taskId, sm2.db with
  | some "error", some tid, some d =>
    if tid != 0 then
      let errorMsg := p.message.getD "Unknown error"
      ({ sm2 with db := some (d.updateTask tid "error"
            ("Agent error: " ++ pyTake errorMsg 500) none) },
       [Ev.updateTaskRow tid "error" ("Agent error: " ++ pyTake errorMsg 500),
        Ev.tasksUpdate])
    else (sm2, [])
  | _, _, _ => (sm2, [])

/-- The manager-idle branch of `apply_callback` (src/agents.py 322-333):
drop the current-task pointer, finish the linked (or latest processing)
pipeline task, and finish the current idea. -/
def applyIdleBranch (p : Payload) (now : Nat) (key : String)
    (taskId ideaId : Option Nat) (sm3 : SM) : SM × List Ev :=
  if key = "manager" ∧ p.status = some "idle" then
    let summary := p.message.getD ""
    let sm4 := { sm3 with currentTaskId := none }
    let r5 :=
      if optNatTruthy taskId then
        StateManager.finish_task sm4.db taskId summary now
      else match sm4.db with
        | some d =>
          let r := StateManager.finish_latest_processing d summary now
          (some r.1, r.2)
        | none => (none, [])
    let sm5 := { sm4 with db := r5.1, currentIdeaId := none }
    let r6 :=
      match ideaId with
      | some iid =>
        if iid != 0 then StateManager.finish_idea sm5.db iid summary
        else (sm5.db, [])
      | none => (sm5.db, [])
    ({ sm5 with db := r6.1 }, r5.2 ++ r6.2)
  else (sm3, [])

/-- `StateManager.apply_callback` (src/agents.py 261-333). -/
def StateManager.apply_callback (p : Payload) (now : Nat) (sm : SM) : SM × List Ev :=
  let key := p.agent.getD ""
  match lookupAgent sm.agents key with
  | none => (sm, [])
  | some a0 =>
    let a3 := updatedAgent p now a0
    let sm1 := { sm with agents := replaceAgent sm.agents key a3 }
    let r2 := applyMsgBranch p now key a3 sm1
    let taskId := pyOrId p.taskId sm.currentTaskId
    let r3 := applyErrBranch p taskId r2.1
    let r4 := applyIdleBranch p now key taskId sm.currentIdeaId r3.1
    (r4.1, [Ev.agentUpdate a3.to_dict] ++ r2.2 ++ r3.2 ++ r4.2)

-- ── Callback-ingestion helpers (src/main.py) ─────────────────────────────────

/-- `_maybe_notify_tg` (src/main.py 1737-1759). -/
def maybe_notify_tg (p : Payload) : List Ev :=
  let agent := p.agent.getD ""
  let status := p.status.getD ""
  let msg := p.message.getD ""
  let task := p.task.getD ""
  if agent = "manager" ∧ status = "idle" then
    let summary := if msg != "" then msg else "Команда завершила работу."
    let short := pyTake summary 300 ++ (if summary.length > 300 then "…" else "")
    [Ev.tgNotify ("✅ <b>Задача выполнена</b>\n\n" ++ short)]
  else if agent = "manager" ∧ status = "thinking" ∧ msg != "" then
    let short := pyTake msg 200 ++ (if msg.length > 200 then "…" else "")
    [Ev.tgNotify ("🎯 <b>Manager</b>: " ++ short)]
  else if agent ≠ "manager" ∧ status = "working" ∧ task != "" then
    [Ev.tgAgentProgress agent task]
  else []

/-- The "lessons learned" loop of `n8n_callback` (src/main.py 290-306). -/
def lessonsEvents (p : Payload) (agent : String) : List Ev :=
  if lessonsTruthy p.lessons_learned ∧ agent ≠ "" then
    (lessonsList p.lessons_learned).filterMap (fun lesson =>
      if pyStrip lesson != "" then some (Ev.saveMemory agent (pyStrip lesson)) else none)
  else []

/-- The worker-result accumulation step of `n8n_callback` (src/main.py
337-346): agents other than the manager reporting `status=done` with a
non-empty message are appended, de-duplicating identical (agent, result)
pairs. -/
def accumulateResult (p : Payload) (now : Nat) (tr : List TaskRes) : List TaskRes :=
  let agent := p.agent.getD ""
  let message := pyStrip (p.message.getD "")
  if agent ≠ "" ∧ agent ≠ "manager" ∧ p.status = some "done" ∧ message ≠ "" then
    if tr.any (fun r => r.agent == agent && r.result == message) then tr
    else tr ++ [{ agent := agent, result := message, timestamp := now }]
  else tr

/-- `_get_current_task_title` (src/main.py 101-114). -/
def get_current_task_title (sm : SM) : String :=
  match sm.db, sm.currentTaskId with
  | some d, some tid =>
    if tid != 0 then
      match (d.scheduled.filter (fun r => r.linked_task_id == some tid)).head? with
      | some r => r.title
      | none => "Результат задачи"
    else "Результат задачи"
  | _, _ => "Результат задачи"

/-- `VALID_QUEST_TYPES` (src/main.py 608). -/
def VALID_QUEST_TYPES : List String :=
  ["provide_token", "api_key", "approve", "top_up", "info"]

/-- The scheduled-task lookup of `_link_result_to_scheduled_task`
(src/main.py 1363-1386): strategy 1 by `linked_task_id`, strategy 2 the
most recent `in_progress` row. -/
def linkFindScheduled (d : Db) (pid : Option Nat) : Option SchedRow :=
  let strat1 : Option SchedRow :=
    if optNatTruthy pid then
      match pid with
      | some p0 => (d.scheduled.filter (fun r => r.linked_task_id == some p0)).head?
      | none => none
    else none
  match strat1 with
  | some s => some s
  | none => mostRecentBy SchedRow SchedRow.created_at
      (d.scheduled.filter (fun r => r.status == "in_progress"))

/-- `_link_result_to_scheduled_task` (src/main.py 1358-1411). -/
def link_result_to_scheduled_task (sm : SM) (result : ResultPayload) (now : Nat) :
    SM × List Ev :=
  match sm.db with
  | none => (sm, [])
  | some d =>
    let pid := sm.currentTaskId
    match linkFindScheduled d pid with
    | none => (sm, [])
    | some s =>
      let u : SchedUpdate :=
        { status := some "done", result := some result,
          review_status := some "pending_review",
          linked_task_id :=
            if optNatTruthy pid && !(optNatTruthy s.linked_task_id) then pid else none }
      let ru := StateManager.update_scheduled_task (some d) s.id u now
      ({ sm with db := ru.1 },
       [Ev.updateScheduled s.id u,
        Ev.taskCompleted s.id s.title s.assigned_agent,
        Ev.tasksUpdate])

/-- Insertion step of a stable descending insertion sort by key. -/
def insertByDesc (α : Type) (key : α → Nat) (x : α) : List α → List α
  | [] => [x]
  | y :: ys => if key x > key y then x :: y :: ys else y :: insertByDesc α key x ys

/-- Stable descending sort by key (`order=created_at.desc`). -/
def sortByDesc (α : Type) (key : α → Nat) : List α → List α
  | [] => []
  | x :: xs => insertByDesc α key x (sortByDesc α key xs)

/-- `_link_result_to_idea` (src/main.py 1634-1655): fuzzy-match the five
most recent ideas against the task title; the PATCH passes an
already-wrapped `"eq.<id>"` filter value, which `SupabaseClient.update`
wraps a second time, so the update matches no row. -/
def link_result_to_idea (d : Db) (task_title : String) (result : ResultPayload) :
    Db × List Ev :=
  let statuses : List String := ["active", "planned", "planning", "done"]
  let ideas5 := (sortByDesc IdeaRow IdeaRow.created_at
    (d.ideas.filter (fun i => statuses.contains i.status))).take 5
  let found := ideas5.find? (fun idea =>
    let ic := pyTake (pyLower idea.content) 50
    let tt := pyTake (pyLower task_title) 50
    strContainsB (pyTake ic 20) tt || strContainsB (pyTake tt 20) ic)
  match found with
  | some idea =>
    let f := IdFilter.strId ("eq." ++ toString idea.id)
    (d.updateIdea f (some "done") (some result), [Ev.updateIdeaRow f])
  | none => (d, [])

/-- Keyword heuristic for string user actions (src/main.py 1599-1601). -/
def looksLikeInputAction (s : String) : Bool :=
  ["укажи", "введи", "добавь", "настрой", "предоставь", "provide", "enter"].any
    (fun kw => strContainsB kw (pyLower s))

/-- The `json.loads`/version-2 parse of `_notify_user_task_done`
(src/main.py 1567-1578): clean title, user actions and summary. -/
def notifyParsed (result : ResultPayload) (scheduled : Option SchedRow) :
    String × List UserAction × String :=
  match result with
  | .structured s =>
    (if s.title = "" then "Задача" else s.title, s.user_actions, s.summary)
  | .raw _ true => ("Задача", [], "")
  | .raw _ false =>
    (match scheduled with
     | some r => r.title
     | none => "Задача", [], "")

/-- The per-action quest creation step of the `_notify_user_task_done`
loop (src/main.py 1602-1624). -/
def notifyActionStep (clean_title : String) (task_id : Option Nat)
    (total_actions : Nat) (now : Nat) (acc : Db × List Ev) (ia : Nat × UserAction) :
    Db × List Ev :=
  let action_text := match ia.2 with | .str s => s | .obj t _ => t
  if action_text = "" then acc
  else
    let r := StateManager.create_quest (some acc.1) (pyTake action_text 80)
      ("Для задачи: " ++ pyTake clean_title 60) "info" "manager" 10
      (some { task_id := task_id, action := some "user_action",
              action_index := some ia.1,
              total_actions := some total_actions,
              input_required := true,
              input_label := some (pyTake action_text 80),
              input_placeholder := some "Укажи данные или напиши что готово..." }) now
    match r with
    | (some d2, some q) => (d2, acc.2 ++ [Ev.questCreated q, Ev.tgNotifyQuest q.id])
    | _ => acc

/-- The `user_actions` filtering of `_notify_user_task_done`
(src/main.py 1595-1601): dict actions flagged `input_required`, falling
back to keyword-matched string actions. -/
def notifyInputActions (user_actions : List UserAction) : List UserAction :=
  let dicts := user_actions.filter (fun a => match a with
    | .obj _ req => req
    | .str _ => false)
  if !dicts.isEmpty then dicts
  else user_actions.filter (fun a => match a with
    | .str s => looksLikeInputAction s
    | .obj _ _ => false)

/-- The trailing idea-link step of `_notify_user_task_done`
(src/main.py 1626-1628). -/
def notifyIdeaLink (o : Option SchedRow) (d2 : Db) (result : ResultPayload) :
    Db × List Ev :=
  match o with
  | some sr => link_result_to_idea d2 sr.title result
  | none => (d2, [])

/-- `_notify_user_task_done` (src/main.py 1550-1628): create the review
quest and up to three user-action quests from the just-completed result. -/
def notify_user_task_done (sm : SM) (result : ResultPayload) (now : Nat) :
    SM × List Ev :=
  match sm.db with
  | none => (sm, [])
  | some d =>
    let scheduled := mostRecentBy SchedRow SchedRow.created_at
      (d.scheduled.filter (fun r =>
        r.status == "done" && r.review_status == some "pending_review"))
    let task_id : Option Nat := scheduled.map SchedRow.id
    let parsed := notifyParsed result scheduled
    let clean_title := parsed.1
    let user_actions := parsed.2.1
    let summary := parsed.2.2
    let desc := if summary != "" then summary
                else "Агенты выполнили задачу. Проверь результат и оцени."
    let r1 := StateManager.create_quest (some d) ("Проверь: " ++ pyTake clean_title 60)
      desc "approve" "manager" 15
      (some { task_id := task_id, action := some "review" }) now
    let d1 := r1.1.getD d
    let evs1 := match r1.2 with
      | some q => [Ev.questCreated q, Ev.tgNotifyQuest q.id]
      | none => []
    let input_actions := notifyInputActions user_actions
    let r2 := ((input_actions.take 3).enum).foldl
      (notifyActionStep clean_title task_id user_actions.length now) (d1, [])
    let d2 := r2.1
    let evs2 := r2.2
    let r3 := notifyIdeaLink scheduled d2 result
    ({ sm with db := some r3.1 }, evs1 ++ evs2 ++ r3.2)

-- ── The callback endpoint (src/main.py 259-385) ──────────────────────────────

/-- The module-level mutable state of src/main.py used by the callback:
the `StateManager`, the worker-result accumulator `_task_results`, and
whether `N8N_MANAGER_WEBHOOK` is configured. -/
structure Gst where
  sm : SM
  taskResults : List TaskRes := []
  hasWebhook : Bool := true
  deriving Repr, DecidableEq

/-- The diary step of `n8n_callback` (src/main.py 284-288). -/
def callbackDiaryEvents (agent message : String) : List Ev :=
  if agent ≠ "" ∧ message ≠ "" then
    [Ev.diaryEntry agent "status_change" message]
  else []

/-- The error-persistence step of `n8n_callback` (src/main.py 308-319):
`save_error` is awaited and, when it returns a row, an asynchronous
reflection is scheduled. -/
def callbackErrorStep (p : Payload) (agent : String) (sm1 : SM) : SM × List Ev :=
  match p.error_detail with
  | some detail =>
    if detail ≠ "" ∧ agent ≠ "" then
      match sm1.db with
      | some d =>
        ({ sm1 with db := some { d with nextErrorId := d.nextErrorId + 1 } },
         [Ev.saveErrorEv agent (p.error_type.getD "runtime") detail,
          Ev.autoReflect d.nextErrorId])
      | none => (sm1, [])
    else (sm1, [])
  | none => (sm1, [])

/-- The quest-creation step of `n8n_callback` (src/main.py 321-335): on
`status == "quest"` an unknown quest type is coerced to `"info"` and the
created quest is broadcast. -/
def callbackQuestStep (p : Payload) (agent message : String) (now : Nat)
    (sm2 : SM) : SM × List Ev :=
  if p.status = some "quest" then
    let raw_qt := p.quest_type.getD "info"
    let safe_qt := if VALID_QUEST_TYPES.contains raw_qt then raw_qt else "info"
    let qtitle := p.quest_title.getD (p.task.getD "Quest")
    let rq := StateManager.create_quest sm2.db qtitle message safe_qt agent
      (safe_int (p.xp_reward.getD (.ok 10)) 10) p.quest_data now
    match rq.2 with
    | some q =>
      ({ sm2 with db := rq.1 }, [Ev.questCreated q, Ev.tgNotifyQuest q.id])
    | none => ({ sm2 with db := rq.1 }, [])
  else (sm2, [])

/-- The completion body of the manager-idle branch of `n8n_callback`
(src/main.py 352-383): build the structured result from the accumulated
snapshot, then — strictly sequentially — link it to the scheduled task
and only afterwards derive the quests. -/
def callbackIdleCompletion (p : Payload) (message : String) (now : Nat)
    (tr2 : List TaskRes) (sm3 : SM) : SM × List Ev :=
  let plan_title := pyStrip (p.title.getD "")
  let task_title := if plan_title != "" then plan_title
                    else get_current_task_title sm3
  let user_actions := parseUserActions p.user_actions
  let combined := ResultPayload.structured
    (build_structured_result task_title message tr2 user_actions)
  if !combined.isBlank then
    let rL := link_result_to_scheduled_task sm3 combined now
    let rN := notify_user_task_done rL.1 combined now
    (rN.1, rL.2 ++ rN.2)
  else (sm3, [])

/-- `n8n_callback` (src/main.py 259-385) on a JSON-parsed payload.
Returns the new state, the event trace in program order, and — when the
manager-idle completion branch ran — the snapshot `list(_task_results)`
that `_build_structured_result` consumed. -/
def n8n_callback (p : Payload) (now : Nat) (g : Gst) :
    Gst × List Ev × Option (List TaskRes) :=
  let r1 := StateManager.apply_callback p now g.sm
  let sm1 := r1.1
  let evs1 := r1.2
  let evs2 := maybe_notify_tg p
  let agent := p.agent.getD ""
  let message := pyStrip (p.message.getD "")
  let evs3 := callbackDiaryEvents agent message
  let evs4 := lessonsEvents p agent
  let r5 := callbackErrorStep p agent sm1
  let sm2 := r5.1
  let evs5 := r5.2
  let r6 := callbackQuestStep p agent message now sm2
  let sm3 := r6.1
  let evs6 := r6.2
  let tr1 := accumulateResult p now g.taskResults
  let tr2 := if agent = "manager" ∧ p.status = some "thinking" then [] else tr1
  if agent = "manager" ∧ p.status = some "idle" then
    let rI := callbackIdleCompletion p message now tr2 sm3
    ({ sm := rI.1, taskResults := [], hasWebhook := g.hasWebhook },
     evs1 ++ evs2 ++ evs3 ++ evs4 ++ evs5 ++ evs6 ++ rI.2, some tr2)
  else
    ({ sm := sm3, taskResults := tr2, hasWebhook := g.hasWebhook },
     evs1 ++ evs2 ++ evs3 ++ evs4 ++ evs5 ++ evs6, none)

-- ── Task submission endpoint (src/main.py 242-254, 1686-1701) ────────────────

/-- `_forward_to_n8n` (src/main.py 1686-1701): with no webhook configured,
only a warning chat broadcast; otherwise save the pipeline task, point the
current-task pointer at it, broadcast, and dispatch to the workflow engine
(`_call_n8n` posts task/taskId/callbackUrl). -/
def forward_to_n8n (g : Gst) (task : String) (now : Nat) : Gst × List Ev :=
  if !g.hasWebhook then
    (g, [Ev.chat { role := "manager", name := "Manager", emoji := "🎯",
                   color := "#a78bfa",
                   content := "⚠️ N8N_MANAGER_WEBHOOK не настроен.", time := 0 }])
  else
    let r := StateManager.save_task g.sm.db task now
    ({ g with sm := { g.sm with db := r.1, currentTaskId := r.2 } },
     [Ev.tasksUpdate, Ev.postWebhook task r.2])

/-- `api_task` (src/main.py 242-254): validate the submitted content, then
record the user chat message, broadcast it, and forward to the workflow
engine.  Returns the new state, the event trace and the HTTP status. -/
def api_task (g : Gst) (body_content : Option String) (now : Nat) :
    Gst × List Ev × Nat :=
  let content := pyStrip (body_content.getD "")
  if content = "" then (g, [], 400)
  else if content.length > 5000 then (g, [], 400)
  else
    let msg := addUserMessageMsg content now
    let sm1 := { g.sm with history := appendCapped g.sm.history msg }
    let evSave := if g.sm.db.isSome then [Ev.saveMessage msg] else []
    let r := forward_to_n8n { g with sm := sm1 } content now
    (r.1, evSave ++ [Ev.chat msg] ++ r.2, 200)

-- ── Quest endpoints (src/main.py 606-690, 1414-1547) ─────────────────────────

/-- JSON body of `POST /api/quests`. -/
structure QuestBody where
  title : Option String := none
  description : Option String := none
  quest_type : Option String := none
  agent : Option String := none
  xp_reward : Option (Except Unit Int) := none
  data : Option QuestData := none
  deriving Repr, DecidableEq

/-- `api_create_quest` (src/main.py 611-633): reject an empty title or an
invalid quest type with 400; otherwise insert the quest (500 on db
failure/absence).  No broadcast is emitted by this endpoint. -/
def api_create_quest (g : Gst) (b : QuestBody) (now : Nat) :
    Gst × Nat × Option QuestRow :=
  let title := pyStrip (b.title.getD "")
  let description := pyStrip (b.description.getD "")
  let quest_type := b.quest_type.getD "info"
  let agent := b.agent.getD ""
  let xp := safe_int (b.xp_reward.getD (.ok 10)) 10
  if title = "" then (g, 400, none)
  else if !(VALID_QUEST_TYPES.contains quest_type) then (g, 400, none)
  else
    match StateManager.create_quest g.sm.db title description quest_type agent xp b.data now with
    | (odb, some q) => ({ g with sm := { g.sm with db := odb } }, 200, some q)
    | (odb, none) => ({ g with sm := { g.sm with db := odb } }, 500, none)

/-- `_is_clarification_needed` (src/main.py 1414-1425). -/
def clarificationIndicators : List String :=
  ["не понимаю", "не понял", "что нужно", "что это", "что значит",
   "как это", "где взять", "где найти", "что предоставить", "что дать",
   "можно конкретн", "поясни", "объясни", "уточни", "какой формат",
   "что именно", "не знаю что", "хз", "непонятно", "?"]

def is_clarification_needed (response : Option String) : Bool :=
  match response with
  | none => false
  | some s =>
    if s = "" then false
    else
      let r := pyStrip (pyLower s)
      clarificationIndicators.any (fun ind => strContainsB ind r)

/-- `_create_clarification_quest` (src/main.py 1428-1465): spawn a new
`user_action` quest restating the original request; `oq` is the quest row
fetched before completion (`none` models the empty fallback dict). -/
def create_clarification_quest (sm : SM) (oq : Option QuestRow)
    (user_question : String) (now : Nat) : SM × List Ev :=
  match sm.db with
  | none => (sm, [])
  | some d =>
    let original_title := (oq.map QuestRow.title).getD ""
    let original_data := (oq.map QuestRow.data).getD {}
    let detail :=
      "Ты спросил: \"" ++ user_question ++ "\"\n\n" ++
      "Что нужно: " ++ original_title ++ "\n\n" ++
      "Если у тебя нет этого — напиши \x27пропустить\x27 или \x27нет доступа\x27. " ++
      "Если непонятно что именно — опиши свою ситуацию, и мы адаптируем план."
    let rq := StateManager.create_quest (some d)
      ("Уточнение: " ++ pyTake original_title 60) detail "info" "manager" 5
      (some { original_data with
              action := some "user_action",
              is_clarification := true,
              original_question := some user_question,
              input_required := true,
              input_label := some "Введи данные, или напиши \x27пропустить\x27 / задай вопрос",
              input_placeholder := some "Данные, или опиши что непонятно..." }) now
    match rq with
    | (odb, some q) => ({ sm with db := odb }, [Ev.questCreated q])
    | (odb, none) => ({ sm with db := odb }, [])

/-- `_check_phase2_trigger` (src/main.py 1468-1547): when every
`user_action` quest of the task is completed, collect the responses keyed
by `input_label` and forward one synthesized Phase-2 task to the workflow
engine. -/
def check_phase2_trigger (g : Gst) (quest_id : Nat) (response : Option QResp) :
    Gst × List Ev :=
  match g.sm.db with
  | none => (g, [])
  | some d =>
    match (d.quests.filter (fun q => q.id == quest_id)).head? with
    | none => (g, [])
    | some quest =>
      if quest.data.action ≠ some "user_action" then (g, [])
      else match quest.data.task_id with
      | none => (g, [])
      | some t =>
        if t = 0 then (g, [])
        else
          let all_quests := d.quests.filter (fun q =>
            q.data.action == some "user_action" && q.data.task_id == some t)
          if all_quests.isEmpty then (g, [])
          else
            let pending := all_quests.filter (fun q => q.status != "completed")
            if !pending.isEmpty then (g, [])
            else
              let collected := all_quests.foldl (fun acc q =>
                let label := q.data.input_label.getD q.title
                let resp := match q.response with
                  | some (.str s) => s
                  | some (.dict inner) => inner.getD ""
                  | none => ""
                dictInsert acc label (if resp = "" then "подтверждено" else resp)) []
              let original_task :=
                match (d.scheduled.filter (fun r => r.id == t)).head? with
                | some r => r.title
                | none => "Задача"
              let inputs_text :=
                pyJoin "\n" (collected.map (fun kv => "- " ++ kv.1 ++ ": " ++ kv.2))
              let phase2_task :=
                "ФАЗА 2 — РЕАЛИЗАЦИЯ. Пользователь предоставил все данные.\n\n" ++
                "Оригинальная задача: " ++ original_task ++ "\n\n" ++
                "Данные от пользователя:\n" ++ inputs_text ++ "\n\n" ++
                "Теперь СДЕЛАЙ реальный продукт. Не план — ГОТОВЫЙ результат. " ++
                "Код, тексты, конфиги — всё что нужно для запуска."
              (g, [Ev.phase2AgentUpdate] ++
                 (if g.hasWebhook then [Ev.postWebhook phase2_task none] else []))

/-- `api_complete_quest` (src/main.py 660-690): fetch the quest, mark it
completed, then either spawn a clarification quest (confused response to a
`user_action` quest) or run the Phase-2 trigger check. -/
def api_complete_quest (g : Gst) (quest_id : Nat) (response : Option String)
    (now : Nat) : Gst × List Ev × Nat :=
  let quest_rows : Option QuestRow :=
    match g.sm.db with
    | some d => (d.quests.filter (fun q => q.id == quest_id)).head?
    | none => none
  let rc := StateManager.complete_quest g.sm.db quest_id (response.map QResp.str) now
  let g1 := { g with sm := { g.sm with db := rc.1 } }
  if !rc.2 then (g1, [], 500)
  else
    let is_question := is_clarification_needed response
    let quest_action := match quest_rows with
      | some q => q.data.action
      | none => none
    if is_question ∧ quest_action = some "user_action" then
      let r := create_clarification_quest g1.sm quest_rows (response.getD "") now
      ({ g1 with sm := r.1 }, r.2, 200)
    else
      let r := check_phase2_trigger g1 quest_id (response.map QResp.str)
      (r.1, r.2, 200)

-- ── Degraded-mode StateManager accessors (src/agents.py) ─────────────────────
--
-- The standalone CRUD accessors below all follow the same source shape:
-- `if not self.db: return <empty/falsy>` and otherwise a try/except around
-- one gateway call returning the same empty/falsy sentinel on exception.
-- The remote reply is passed in as an outcome parameter; only the
-- degraded branch and the exception handling carry claim content.

/-- Shared shape of the list-returning reads (`get_tasks`, `get_ideas`,
`get_memory`, `get_profile`, `get_errors`, `get_feedback`, `get_diary`,
`get_scheduled_tasks`, `get_quests`, `get_articles`). -/
def listReadOp (α : Type) (hasDb : Bool) (r : HttpBodyOutcome (List α)) : List α :=
  if hasDb then
    match SupabaseClient.select α r with
    | .ok rows => rows
    | .error _ => []
  else []

/-- Shared shape of the single-row reads (`get_scheduled_task_by_id`,
`get_agent_task_by_id`, `get_article_by_id`): `rows[0] if rows else None`,
`None` on exception or with no db. -/
def rowReadOp (α : Type) (hasDb : Bool) (r : HttpBodyOutcome (List α)) : Option α :=
  if hasDb then
    match SupabaseClient.select α r with
    | .ok rows => rows.head?
    | .error _ => none
  else none

/-- Shared shape of the inserting writes returning the created row
(`save_memory`, `save_feedback`, `save_error`, `create_idea`,
`create_scheduled_task`, `save_article`): `rows[0] if rows else None`,
`None` on exception or with no db. -/
def insertWriteOp (α : Type) (hasDb : Bool) (r : HttpBodyOutcome (List α)) : Option α :=
  if hasDb then
    match SupabaseClient.insert_returning α r with
    | .ok rows => rows.head?
    | .error _ => none
  else none

/-- Shared shape of the boolean writes (`delete_memory`, `delete_profile`,
`update_error_reflection`, and the db-backed path of
`update_scheduled_task_status`): `True` on success, `False` on exception
or with no db. -/
def boolWriteOp (hasDb : Bool) (r : HttpOutcome) : Bool :=
  if hasDb then
    match SupabaseClient.delete r with
    | .ok _ => true
    | .error _ => false
  else false

/-- `update_profile` (src/agents.py 557-572): upsert, `rows[0]` or `None`. -/
def StateManager.update_profile (α : Type) (hasDb : Bool)
    (r : HttpBodyOutcome (List α)) : Option α :=
  if hasDb then
    match SupabaseClient.upsert α r with
    | .ok rows => rows.head?
    | .error _ => none
  else none

/-- A `diary` row as selected by `get_briefing`. -/
structure DiaryRow where
  id : Nat
  agent : String
  event_type : String
  content : String
  created_at : Nat
  deriving Repr, DecidableEq

/-- A value of the dict returned by `get_briefing`. -/
inductive BriefVal where
  | num (n : Nat)
  | strList (l : List String)
  | diaryRows (l : List DiaryRow)
  deriving Repr, DecidableEq

/-- Python `list(set(...))` as stable de-duplication (set order is
unspecified; first occurrence order is one admissible rendering). -/
def dedupStable (l : List String) : List String :=
  l.foldl (fun acc a => if acc.contains a then acc else acc ++ [a]) []

/-- `StateManager.get_briefing` (src/agents.py 981-1023): the 24-hour
summary dict.  With no db — or when any of the four gathered selects
raises — it returns the fixed zero default dict with five keys. -/
def StateManager.get_briefing (hasDb : Bool)
    (rQuests rTasks : HttpBodyOutcome (List Nat))
    (rDiary24 rLastDiary : HttpBodyOutcome (List DiaryRow)) :
    List (String × BriefVal) :=
  let defaultB : List (String × BriefVal) :=
    [("quests_pending", .num 0), ("tasks_completed_24h", .num 0),
     ("diary_entries_24h", .num 0), ("active_agents_24h", .strList []),
     ("last_diary", .diaryRows [])]
  if hasDb then
    match SupabaseClient.select Nat rQuests, SupabaseClient.select Nat rTasks,
          SupabaseClient.select DiaryRow rDiary24,
          SupabaseClient.select DiaryRow rLastDiary with
    | .ok qp, .ok t24, .ok d24, .ok ld =>
      [("quests_pending", .num qp.length),
       ("tasks_completed_24h", .num t24.length),
       ("diary_entries_24h", .num d24.length),
       ("active_agents_24h", .strList (dedupStable (d24.map DiaryRow.agent))),
       ("last_diary", .diaryRows ld)]
    | _, _, _, _ => defaultB
  else defaultB

-- ── Event-shape predicates ───────────────────────────────────────────────────

def Ev.isAgentUpdate : Ev → Bool
  | .agentUpdate _ => true
  | _ => false

def Ev.isChat : Ev → Bool
  | .chat _ => true
  | _ => false

def Ev.isQuestCreated : Ev → Bool
  | .questCreated _ => true
  | _ => false

def Ev.isSchedWrite : Ev → Bool
  | .updateScheduled _ _ => true
  | _ => false

def Ev.isPostWebhook : Ev → Bool
  | .postWebhook _ _ => true
  | _ => false

-- ── C8: quest completion triggers Phase 2 ───────────────────────────────────

/-- A pending `user_action` quest tied to scheduled task `t`, as created
by `_notify_user_task_done` / `_create_clarification_quest`. -/
def mkUAQuest (id t : Nat) (title label : String) (created : Nat) : QuestRow :=
  { id := id, title := title, description := "", quest_type := "info",
    agent := "manager", status := "pending", xp_reward := 10,
    data := { action := some "user_action", task_id := some t,
              input_required := true, input_label := some label },
    created_at := created }

/-- The same quest after `complete_quest` stored a string response. -/
def mkUAQuestDone (id t : Nat) (title label : String) (created : Nat)
    (resp : String) (ts : Nat) : QuestRow :=
  { mkUAQuest id t title label created with
    status := "completed", completed_at := some ts,
    response := some (.str resp) }

def c8db : Db :=
  { scheduled := [{ id := 5, title := "Сайт", status := "done", created_at := 1 }],
    quests := [mkUAQuest 1 5 "Q1" "данные" 1, mkUAQuest 2 5 "Q2" "данные" 2],
    nextQuestId := 3 }

def c8g : Gst := { sm := { db := some c8db } }

/-- A second pair of quests with *distinct* labels, for the amended claim. -/
def c8db2 : Db :=
  { scheduled := [{ id := 5, title := "Сайт", status := "done", created_at := 1 }],
    quests := [mkUAQuest 1 5 "Q1" "логин" 1, mkUAQuest 2 5 "Q2" "пароль" 2],
    nextQuestId := 3 }

def c8g2 : Gst := { sm := { db := some c8db2 } }

/-- The Phase-2 task text `_check_phase2_trigger` synthesizes for a task
titled `original` with two collected label/response pairs, with the
association of `++` exactly as the source builds it. -/
def phase2Text (original l1 r1 l2 r2 : String) : String :=
  "ФАЗА 2 — РЕАЛИЗАЦИЯ. Пользователь предоставил все данные.\n\n" ++
  "Оригинальная задача: " ++ original ++ "\n\n" ++
  "Данные от пользователя:\n" ++
  ("- " ++ l1 ++ ": " ++ r1 ++ "\n" ++ ("- " ++ l2 ++ ": " ++ r2)) ++ "\n\n" ++
  "Теперь СДЕЛАЙ реальный продукт. Не план — ГОТОВЫЙ результат. " ++
  "Код, тексты, конфиги — всё что нужно для запуска."


-- ═════════════════════════════════ Theorems ═════════════════════════════════

-- ── C4: chat history capping ────────────────────────────────────────────────

lemma appendCapped_length_le (h : List Msg) (m : Msg) (hh : h.length ≤ 200) :
    (appendCapped h m).length ≤ 200 := by
  simp only [appendCapped]
  split <;> simp_all

lemma foldl_appendCapped_length (ms : List Msg) :
    ∀ h : List Msg, h.length ≤ 200 → (ms.foldl appendCapped h).length ≤ 200 := by
  induction ms with
  | nil => intro h hh; simpa using hh
  | cons m rest ih =>
    intro h hh
    rw [List.foldl_cons]
    exact ih _ (appendCapped_length_le h m hh)

lemma foldl_appendCapped (ms : List Msg) :
    ∀ h : List Msg, h.length ≤ 200 →
      ms.foldl appendCapped h = (h ++ ms).drop ((h ++ ms).length - 200) := by
  induction ms with
  | nil =>
    intro h hh
    have : h.length - 200 = 0 := by omega
    simp [this]
  | cons m rest ih =>
    intro h hh
    rw [List.foldl_cons, ih (appendCapped h m) (appendCapped_length_le h m hh)]
    simp only [appendCapped]
    split
    case isTrue hgt =>
      have hlen : h.length = 200 := by
        simp at hgt; omega
      have hA : (1 : Nat) ≤ (h ++ [m]).length := by simp
      have e1 : (h ++ [m]).drop 1 ++ rest = ((h ++ [m]) ++ rest).drop 1 :=
        (List.drop_append_of_le_length hA).symm
      rw [e1, List.drop_drop]
      have e2 : h ++ m :: rest = (h ++ [m]) ++ rest := by simp
      rw [e2]
      congr 1
      simp [hlen]
      omega
    case isFalse hle =>
      have e2 : h ++ m :: rest = (h ++ [m]) ++ rest := by simp
      rw [e2]

/-- C4: for every sequence of more than 200 appended chat messages
(both append sites — user input and agent callback — run the same
append-then-pop-front code modelled by `appendCapped`), the history length
never exceeds 200 at any intermediate point, and eviction is FIFO: the
final history is exactly the most recent 200 messages in original order. -/
theorem chat_capping_fifo (msgs : List Msg) (h : 200 < msgs.length) :
    (∀ n : Nat, ((msgs.take n).foldl appendCapped []).length ≤ 200) ∧
    (msgs.foldl appendCapped []).length = 200 ∧
    msgs.foldl appendCapped [] = msgs.drop (msgs.length - 200) := by
  have hchar := foldl_appendCapped msgs [] (by simp)
  simp at hchar
  refine ⟨fun n => foldl_appendCapped_length _ [] (by simp), ?_, hchar⟩
  rw [hchar]
  simp
  omega

/-- Concrete 201-message run for the capping theorem. -/
def c4msgs : List Msg :=
  (List.range 201).map (fun i =>
    { role := "user", name := "Вы", emoji := "👤", color := "#6366f1",
      content := toString i, time := i })

theorem chat_capping_fifo_witness :
    200 < c4msgs.length ∧
    ((∀ n : Nat, ((c4msgs.take n).foldl appendCapped []).length ≤ 200) ∧
     (c4msgs.foldl appendCapped []).length = 200 ∧
     c4msgs.foldl appendCapped [] = c4msgs.drop (c4msgs.length - 200)) :=
  ⟨by simp [c4msgs], chat_capping_fifo c4msgs (by simp [c4msgs])⟩

-- ── C2: persistence gateway error propagation ───────────────────────────────

/-- C2 (counterexample): the claim says every gateway operation catches
network failures and returns an empty result to the caller.  In the code
`SupabaseClient.select` has no try/except: a transport failure raised by
`httpx` propagates as an exception, it does not become `[]`. -/
theorem gateway_select_propagates_network_error :
    SupabaseClient.select Nat HttpBodyOutcome.transportError =
      Except.error GatewayError.network ∧
    ∀ rows : List Nat,
      SupabaseClient.select Nat HttpBodyOutcome.transportError ≠ Except.ok rows := by
  exact ⟨rfl, fun rows h => by simp [SupabaseClient.select] at h⟩

/-- C2 (amended): each gateway operation converts a non-success HTTP
status into an empty/falsy result without raising, but transport errors
(and body-parse failures) propagate out of the gateway; the StateManager
wrappers (here `get_tasks`) catch them and hand the caller an empty
result. -/
theorem gateway_status_handled_statemanager_catches :
    (∀ (α : Type) (s : Nat) (body : Option (List α)), s ≠ 200 →
        SupabaseClient.select α (.response s body) = .ok []) ∧
    (∀ (α : Type) (s : Nat) (body : Option (List α)), s ≠ 200 → s ≠ 201 →
        SupabaseClient.insert_returning α (.response s body) = .ok [] ∧
        SupabaseClient.upsert α (.response s body) = .ok []) ∧
    (∀ s : Nat, SupabaseClient.insert (.response s) = .ok () ∧
        SupabaseClient.update (.response s) = .ok () ∧
        SupabaseClient.delete (.response s) = .ok ()) ∧
    (∀ α : Type, SupabaseClient.insert_returning α .transportError = .error .network ∧
        SupabaseClient.upsert α .transportError = .error .network) ∧
    (SupabaseClient.insert .transportError = .error .network ∧
        SupabaseClient.update .transportError = .error .network ∧
        SupabaseClient.delete .transportError = .error .network) ∧
    (∀ α : Type, StateManager.get_tasks_net α true .transportError = [] ∧
        ∀ s : Nat, StateManager.get_tasks_net α true (.response s none) = []) := by
  refine ⟨?_, ?_, ?_, ?_, ⟨rfl, rfl, rfl⟩, ?_⟩
  · intro α s body hs
    simp [SupabaseClient.select, hs]
  · intro α s body hs hs2
    constructor <;> simp [SupabaseClient.insert_returning, SupabaseClient.upsert, hs, hs2]
  · intro s; exact ⟨rfl, rfl, rfl⟩
  · intro α; exact ⟨rfl, rfl⟩
  · intro α
    refine ⟨rfl, fun s => ?_⟩
    by_cases hs : s = 200 <;>
      simp [StateManager.get_tasks_net, SupabaseClient.select, hs]

theorem gateway_status_handled_witness :
    SupabaseClient.select Nat (.response 500 none) = .ok [] ∧
    SupabaseClient.insert_returning Nat (.response 404 none) = .ok [] ∧
    StateManager.get_tasks_net Nat true .transportError = [] :=
  ⟨gateway_status_handled_statemanager_catches.1 Nat 500 none (by decide),
   (gateway_status_handled_statemanager_catches.2.1 Nat 404 none (by decide) (by decide)).1,
   (gateway_status_handled_statemanager_catches.2.2.2.2.2 Nat).1⟩

-- ── C3: degraded mode without a backing store ───────────────────────────────

/-- C3 (counterexample): the claim says every state-manager read returns
an *empty collection* with no backing store.  `get_briefing` instead
returns a five-key zero-default dict — a non-empty collection. -/
theorem get_briefing_degraded_not_empty :
    StateManager.get_briefing false .transportError .transportError
      .transportError .transportError ≠ [] ∧
    (StateManager.get_briefing false .transportError .transportError
      .transportError .transportError).length = 5 := by
  constructor <;> decide

/-- C3 (amended): with no backing store configured, every list-returning
read yields `[]`, every single-row read yields `None`, `get_briefing`
yields its fixed five-key zero default, and every write returns a
falsy/`None` result — none of them raises; the in-memory chat append and
the agent-state update of `apply_callback` continue to work unchanged. -/
theorem degraded_mode_reads_empty_writes_falsy :
    (∀ (α : Type) (r : HttpBodyOutcome (List α)), listReadOp α false r = []) ∧
    (∀ (α : Type) (r : HttpBodyOutcome (List α)), rowReadOp α false r = none) ∧
    (∀ (r1 r2 : HttpBodyOutcome (List Nat)) (r3 r4 : HttpBodyOutcome (List DiaryRow)),
        StateManager.get_briefing false r1 r2 r3 r4 =
          [("quests_pending", .num 0), ("tasks_completed_24h", .num 0),
           ("diary_entries_24h", .num 0), ("active_agents_24h", .strList []),
           ("last_diary", .diaryRows [])]) ∧
    (∀ (α : Type) (r : HttpBodyOutcome (List α)), insertWriteOp α false r = none) ∧
    (∀ r : HttpOutcome, boolWriteOp false r = false) ∧
    (∀ (α : Type) (r : HttpBodyOutcome (List α)),
        StateManager.update_profile α false r = none) ∧
    (∀ (content : String) (now : Nat),
        StateManager.save_task none content now = (none, none)) ∧
    (∀ (tid : Nat) (u : SchedUpdate) (now : Nat),
        StateManager.update_scheduled_task none tid u now = (none, false)) ∧
    (∀ (qid : Nat) (resp : Option QResp) (now : Nat),
        StateManager.complete_quest none qid resp now = (none, false)) ∧
    (∀ (t d qt a : String) (xp : Int) (data : Option QuestData) (now : Nat),
        StateManager.create_quest none t d qt a xp data now = (none, none)) ∧
    (∀ (tid : Option Nat) (s : String) (now : Nat),
        StateManager.finish_task none tid s now = (none, [])) ∧
    (∀ (sm : SM) (content : String) (now : Nat), sm.db = none →
        (api_task { sm := sm, taskResults := [], hasWebhook := false } (some content) now).1.sm.history =
          (if pyStrip content = "" ∨ 5000 < (pyStrip content).length then sm.history
           else appendCapped sm.history (addUserMessageMsg (pyStrip content) now))) := by
  refine ⟨fun α r => rfl, fun α r => rfl, fun r1 r2 r3 r4 => rfl, fun α r => rfl,
         fun r => rfl, fun α r => rfl, fun c n => rfl, fun t u n => rfl,
         fun q r n => rfl, fun t d qt a xp da n => rfl, ?_, ?_⟩
  · intro tid s now
    cases tid <;> rfl
  · intro sm content now hdb
    by_cases h1 : pyStrip content = ""
    · simp [api_task, h1]
    · by_cases h2 : 5000 < (pyStrip content).length
      · simp [api_task, h1, h2]
      · simp [api_task, forward_to_n8n, h1, h2]

theorem degraded_mode_reads_witness :
    listReadOp Nat false .transportError = [] ∧
    rowReadOp Nat false .transportError = none ∧
    boolWriteOp false .transportError = false ∧
    StateManager.save_task none "x" 0 = (none, none) ∧
    ({} : SM).db = none ∧
    (api_task { sm := {}, taskResults := [], hasWebhook := false } (some "hi") 0).1.sm.history =
      (if pyStrip "hi" = "" ∨ 5000 < (pyStrip "hi").length then ({} : SM).history
       else appendCapped ({} : SM).history (addUserMessageMsg (pyStrip "hi") 0)) :=
  ⟨degraded_mode_reads_empty_writes_falsy.1 Nat .transportError,
   degraded_mode_reads_empty_writes_falsy.2.1 Nat .transportError,
   degraded_mode_reads_empty_writes_falsy.2.2.2.2.1 .transportError,
   degraded_mode_reads_empty_writes_falsy.2.2.2.2.2.2.1 "x" 0,
   rfl,
   degraded_mode_reads_empty_writes_falsy.2.2.2.2.2.2.2.2.2.2.2 {} "hi" 0 rfl⟩

-- ── C10: task-submission endpoint validation ────────────────────────────────

/-- C10: the task-submission endpoint rejects empty or over-long (trimmed
length > 5000) content with a 400 response, and in that case returns the
state unchanged, emits no event, and forwards nothing. -/
theorem api_task_rejects_invalid_content_unchanged
    (g : Gst) (body_content : Option String) (now : Nat)
    (h : pyStrip (body_content.getD "") = "" ∨ 5000 < (pyStrip (body_content.getD "")).length) :
    api_task g body_content now = (g, [], 400) := by
  unfold api_task
  rcases h with h | h
  · simp [h]
  · have hne : ¬(pyStrip (body_content.getD "") = "") := by
      intro he; rw [he] at h; simp at h
    simp [hne, h]

-- ── Event-shape lemmas for the callback segments ────────────────────────────

lemma finish_task_events (db : Option Db) (t : Option Nat) (s : String) (now : Nat) :
    ∀ e ∈ (StateManager.finish_task db t s now).2,
      e.isQuestCreated = false ∧ e.isSchedWrite = false ∧
      e.isAgentUpdate = false ∧ e.isChat = false := by
  intro e he
  unfold StateManager.finish_task at he
  split at he
  · split at he <;> simp_all [Ev.isQuestCreated, Ev.isSchedWrite,
      Ev.isAgentUpdate, Ev.isChat]
  · simp at he

lemma finish_latest_events (d : Db) (s : String) (now : Nat) :
    ∀ e ∈ (StateManager.finish_latest_processing d s now).2,
      e.isQuestCreated = false ∧ e.isSchedWrite = false ∧
      e.isAgentUpdate = false ∧ e.isChat = false := by
  intro e he
  unfold StateManager.finish_latest_processing at he
  split at he
  · split at he
    · exact finish_task_events _ _ _ _ e he
    · simp at he
  · simp at he

lemma finish_idea_events (db : Option Db) (i : Nat) (r : String) :
    ∀ e ∈ (StateManager.finish_idea db i r).2,
      e.isQuestCreated = false ∧ e.isSchedWrite = false ∧
      e.isAgentUpdate = false ∧ e.isChat = false := by
  intro e he
  unfold StateManager.finish_idea at he
  split at he <;> simp_all [Ev.isQuestCreated, Ev.isSchedWrite,
    Ev.isAgentUpdate, Ev.isChat]

lemma applyMsgBranch_events (p : Payload) (now : Nat) (key : String)
    (a3 : AgentState) (sm1 : SM) :
    ∀ e ∈ (applyMsgBranch p now key a3 sm1).2,
      e.isQuestCreated = false ∧ e.isSchedWrite = false ∧
      e.isAgentUpdate = false := by
  intro e he
  by_cases h1 : pyStrip (p.message.getD "") = ""
  · simp [applyMsgBranch, h1] at he
  · by_cases h2 : sm1.db.isSome
    · simp [applyMsgBranch, h1, h2] at he
      rcases he with rfl | rfl <;>
        simp [Ev.isQuestCreated, Ev.isSchedWrite, Ev.isAgentUpdate]
    · simp [applyMsgBranch, h1, h2] at he
      subst he
      simp [Ev.isQuestCreated, Ev.isSchedWrite, Ev.isAgentUpdate]

lemma applyErrBranch_events (p : Payload) (taskId : Option Nat) (sm2 : SM) :
    ∀ e ∈ (applyErrBranch p taskId sm2).2,
      e.isQuestCreated = false ∧ e.isSchedWrite = false ∧
      e.isAgentUpdate = false ∧ e.isChat = false := by
  intro e he
  unfold applyErrBranch at he
  split at he
  · split at he
    · simp at he
      rcases he with rfl | rfl <;>
        simp [Ev.isQuestCreated, Ev.isSchedWrite, Ev.isAgentUpdate, Ev.isChat]
    · simp at he
  · simp at he

lemma applyIdleBranch_events (p : Payload) (now : Nat) (key : String)
    (taskId ideaId : Option Nat) (sm3 : SM) :
    ∀ e ∈ (applyIdleBranch p now key taskId ideaId sm3).2,
      e.isQuestCreated = false ∧ e.isSchedWrite = false ∧
      e.isAgentUpdate = false ∧ e.isChat = false := by
  intro e he
  unfold applyIdleBranch at he
  split at he
  case isFalse => simp at he
  case isTrue =>
    dsimp only at he
    simp only [List.mem_append] at he
    rcases he with he | he
    · repeat
        first
        | exact finish_task_events _ _ _ _ e he
        | exact finish_latest_events _ _ _ e he
        | (split at he)
        | (dsimp only at he)
        | (simp at he)
    · repeat
        first
        | exact finish_idea_events _ _ _ e he
        | (split at he)
        | (dsimp only at he)
        | (simp at he)

lemma apply_callback_events (p : Payload) (now : Nat) (sm : SM) :
    ∀ e ∈ (StateManager.apply_callback p now sm).2,
      e.isQuestCreated = false ∧ e.isSchedWrite = false := by
  intro e he
  unfold StateManager.apply_callback at he
  dsimp only at he
  split at he
  · simp at he
  · simp only [List.mem_append, List.mem_singleton] at he
    rcases he with ((he | he) | he) | he
    · subst he; exact ⟨rfl, rfl⟩
    · have h := applyMsgBranch_events p now _ _ _ e he
      exact ⟨h.1, h.2.1⟩
    · have h := applyErrBranch_events p _ _ e he
      exact ⟨h.1, h.2.1⟩
    · have h := applyIdleBranch_events p now _ _ _ _ e he
      exact ⟨h.1, h.2.1⟩

lemma maybe_notify_tg_events (p : Payload) :
    ∀ e ∈ maybe_notify_tg p,
      e.isQuestCreated = false ∧ e.isSchedWrite = false ∧
      e.isAgentUpdate = false ∧ e.isChat = false := by
  intro e he
  unfold maybe_notify_tg at he
  dsimp only at he
  repeat' split at he
  all_goals
    simp_all [Ev.isQuestCreated, Ev.isSchedWrite, Ev.isAgentUpdate, Ev.isChat]

lemma link_events (sm : SM) (result : ResultPayload) (now : Nat) :
    ∀ e ∈ (link_result_to_scheduled_task sm result now).2,
      e.isQuestCreated = false ∧ e.isAgentUpdate = false ∧ e.isChat = false := by
  intro e he
  unfold link_result_to_scheduled_task at he
  split at he
  · simp at he
  · dsimp only at he
    split at he
    · simp at he
    · repeat' split at he
      all_goals simp at he
      all_goals
        rcases he with rfl | rfl | rfl <;>
          simp [Ev.isQuestCreated, Ev.isAgentUpdate, Ev.isChat]

lemma link_idea_events (d : Db) (t : String) (result : ResultPayload) :
    ∀ e ∈ (link_result_to_idea d t result).2,
      e.isQuestCreated = false ∧ e.isSchedWrite = false ∧
      e.isAgentUpdate = false ∧ e.isChat = false := by
  intro e he
  unfold link_result_to_idea at he
  dsimp only at he
  split at he <;>
    simp_all [Ev.isQuestCreated, Ev.isSchedWrite, Ev.isAgentUpdate, Ev.isChat]

lemma notifyIdeaLink_events (o : Option SchedRow) (d2 : Db) (result : ResultPayload) :
    ∀ e ∈ (notifyIdeaLink o d2 result).2,
      e.isQuestCreated = false ∧ e.isSchedWrite = false ∧
      e.isAgentUpdate = false ∧ e.isChat = false := by
  intro e he
  cases o
  · simp [notifyIdeaLink] at he
  · exact link_idea_events _ _ _ e he

lemma notifyActionStep_fold_events (ct : String) (tid : Option Nat)
    (tot now : Nat) (l : List (Nat × UserAction)) :
    ∀ acc : Db × List Ev,
      (∀ e ∈ acc.2, e.isSchedWrite = false ∧ e.isAgentUpdate = false ∧ e.isChat = false) →
      ∀ e ∈ (l.foldl (notifyActionStep ct tid tot now) acc).2,
        e.isSchedWrite = false ∧ e.isAgentUpdate = false ∧ e.isChat = false := by
  induction l with
  | nil => intro acc h; exact h
  | cons x xs ih =>
    intro acc h
    rw [List.foldl_cons]
    apply ih
    intro e he
    unfold notifyActionStep at he
    dsimp only at he
    split at he
    · exact h e he
    · split at he
      · simp only [List.mem_append] at he
        rcases he with he | he
        · exact h e he
        · simp at he
          rcases he with rfl | rfl <;>
            simp [Ev.isSchedWrite, Ev.isAgentUpdate, Ev.isChat]
      · exact h e he

lemma notify_events (sm : SM) (result : ResultPayload) (now : Nat) :
    ∀ e ∈ (notify_user_task_done sm result now).2,
      e.isSchedWrite = false ∧ e.isAgentUpdate = false ∧ e.isChat = false := by
  intro e he
  unfold notify_user_task_done at he
  split at he
  · simp at he
  · dsimp only at he
    rw [List.mem_append, List.mem_append] at he
    rcases he with (he | he) | he
    · split at he
      · simp at he
        rcases he with rfl | rfl <;>
          simp [Ev.isSchedWrite, Ev.isAgentUpdate, Ev.isChat]
      · simp at he
    · exact notifyActionStep_fold_events _ _ _ _ _ _ (by simp) e he
    · have h := notifyIdeaLink_events _ _ _ e he
      exact ⟨h.2.1, h.2.2⟩

-- ── Segment lemmas for the new callback steps ───────────────────────────────

lemma callbackDiaryEvents_events (agent message : String) :
    ∀ e ∈ callbackDiaryEvents agent message,
      e.isQuestCreated = false ∧ e.isSchedWrite = false ∧
      e.isAgentUpdate = false ∧ e.isChat = false := by
  intro e he
  unfold callbackDiaryEvents at he
  split at he <;> simp_all [Ev.isQuestCreated, Ev.isSchedWrite,
    Ev.isAgentUpdate, Ev.isChat]

lemma lessonsEvents_events (p : Payload) (agent : String) :
    ∀ e ∈ lessonsEvents p agent,
      e.isQuestCreated = false ∧ e.isSchedWrite = false ∧
      e.isAgentUpdate = false ∧ e.isChat = false := by
  intro e he
  unfold lessonsEvents at he
  split at he
  · rcases List.mem_filterMap.mp he with ⟨l, _, hl⟩
    split at hl
    · cases hl
      simp [Ev.isQuestCreated, Ev.isSchedWrite, Ev.isAgentUpdate, Ev.isChat]
    · cases hl
  · simp at he

lemma callbackErrorStep_events (p : Payload) (agent : String) (sm1 : SM) :
    ∀ e ∈ (callbackErrorStep p agent sm1).2,
      e.isQuestCreated = false ∧ e.isSchedWrite = false ∧
      e.isAgentUpdate = false ∧ e.isChat = false := by
  intro e he
  unfold callbackErrorStep at he
  repeat' split at he
  all_goals try simp at he
  all_goals
    rcases he with rfl | rfl <;>
      simp [Ev.isQuestCreated, Ev.isSchedWrite, Ev.isAgentUpdate, Ev.isChat]

lemma callbackQuestStep_events (p : Payload) (agent message : String)
    (now : Nat) (sm2 : SM) :
    ∀ e ∈ (callbackQuestStep p agent message now sm2).2,
      e.isSchedWrite = false ∧ e.isAgentUpdate = false ∧ e.isChat = false := by
  intro e he
  unfold callbackQuestStep at he
  dsimp only at he
  repeat' split at he
  all_goals try simp at he
  all_goals
    rcases he with rfl | rfl <;>
      simp [Ev.isSchedWrite, Ev.isAgentUpdate, Ev.isChat]

lemma callbackQuestStep_not_idle (p : Payload) (agent message : String)
    (now : Nat) (sm2 : SM) (h : p.status = some "idle") :
    callbackQuestStep p agent message now sm2 = (sm2, []) := by
  unfold callbackQuestStep
  rw [if_neg]
  simp [h]

lemma link_preserves (sm : SM) (result : ResultPayload) (now : Nat) :
    (link_result_to_scheduled_task sm result now).1.agents = sm.agents ∧
    (link_result_to_scheduled_task sm result now).1.history = sm.history := by
  unfold link_result_to_scheduled_task
  split
  · exact ⟨rfl, rfl⟩
  · next d heq =>
    dsimp only
    cases linkFindScheduled d sm.currentTaskId <;> exact ⟨rfl, rfl⟩

lemma notify_preserves (sm : SM) (result : ResultPayload) (now : Nat) :
    (notify_user_task_done sm result now).1.agents = sm.agents ∧
    (notify_user_task_done sm result now).1.history = sm.history := by
  unfold notify_user_task_done
  split <;> exact ⟨rfl, rfl⟩

lemma callbackIdleCompletion_preserves (p : Payload) (message : String)
    (now : Nat) (tr2 : List TaskRes) (sm3 : SM) :
    (callbackIdleCompletion p message now tr2 sm3).1.agents = sm3.agents ∧
    (callbackIdleCompletion p message now tr2 sm3).1.history = sm3.history := by
  unfold callbackIdleCompletion
  dsimp only
  repeat' split
  all_goals
    first
      | exact ⟨rfl, rfl⟩
      | exact ⟨(notify_preserves _ _ _).1.trans (link_preserves _ _ _).1,
               (notify_preserves _ _ _).2.trans (link_preserves _ _ _).2⟩

lemma callbackErrorStep_preserves (p : Payload) (agent : String) (sm1 : SM) :
    (callbackErrorStep p agent sm1).1.agents = sm1.agents ∧
    (callbackErrorStep p agent sm1).1.history = sm1.history := by
  unfold callbackErrorStep
  repeat' split
  all_goals exact ⟨rfl, rfl⟩

lemma callbackQuestStep_preserves (p : Payload) (agent message : String)
    (now : Nat) (sm2 : SM) :
    (callbackQuestStep p agent message now sm2).1.agents = sm2.agents ∧
    (callbackQuestStep p agent message now sm2).1.history = sm2.history := by
  unfold callbackQuestStep
  dsimp only
  repeat' split
  all_goals exact ⟨rfl, rfl⟩

lemma callbackIdleCompletion_events (p : Payload) (message : String)
    (now : Nat) (tr2 : List TaskRes) (sm3 : SM) :
    ∀ e ∈ (callbackIdleCompletion p message now tr2 sm3).2,
      e.isAgentUpdate = false ∧ e.isChat = false := by
  intro e he
  unfold callbackIdleCompletion at he
  dsimp only at he
  repeat' split at he
  all_goals try dsimp only at he
  all_goals try simp only [List.mem_append] at he
  all_goals try simp at he
  all_goals
    rcases he with he | he
    · have h := link_events _ _ _ e he
      exact ⟨h.2.1, h.2.2⟩
    · have h := notify_events _ _ _ e he
      exact ⟨h.2.1, h.2.2⟩

-- ── Accumulator behaviour of the callback ───────────────────────────────────

lemma apply_callback_unknown (p : Payload) (now : Nat) (sm : SM)
    (h : lookupAgent sm.agents (p.agent.getD "") = none) :
    StateManager.apply_callback p now sm = (sm, []) := by
  simp only [StateManager.apply_callback, h]

lemma n8n_callback_taskResults (p : Payload) (now : Nat) (g : Gst)
    (hmgr : ¬(p.agent.getD "" = "manager" ∧
      (p.status = some "thinking" ∨ p.status = some "idle"))) :
    (n8n_callback p now g).1.taskResults = accumulateResult p now g.taskResults := by
  have hIdle : ¬(p.agent.getD "" = "manager" ∧ p.status = some "idle") :=
    fun h => hmgr ⟨h.1, Or.inr h.2⟩
  have hThink : ¬(p.agent.getD "" = "manager" ∧ p.status = some "thinking") :=
    fun h => hmgr ⟨h.1, Or.inl h.2⟩
  simp only [n8n_callback]
  rw [if_neg hIdle, if_neg hThink]

lemma n8n_callback_thinking_clears (p : Payload) (now : Nat) (g : Gst)
    (ha : p.agent.getD "" = "manager") (hs : p.status = some "thinking") :
    (n8n_callback p now g).1.taskResults = [] := by
  have hIdle : ¬(p.agent.getD "" = "manager" ∧ p.status = some "idle") := by
    simp [hs]
  simp only [n8n_callback]
  rw [if_neg hIdle, if_pos ⟨ha, hs⟩]

lemma n8n_callback_idle_consumes (p : Payload) (now : Nat) (g : Gst)
    (ha : p.agent.getD "" = "manager") (hs : p.status = some "idle") :
    (n8n_callback p now g).2.2 = some g.taskResults ∧
    (n8n_callback p now g).1.taskResults = [] := by
  have hThink : ¬(p.agent.getD "" = "manager" ∧ p.status = some "thinking") := by
    simp [hs]
  have hacc : accumulateResult p now g.taskResults = g.taskResults := by
    unfold accumulateResult
    rw [if_neg]
    intro hg
    exact hg.2.1 ha
  constructor <;>
  · simp only [n8n_callback]
    rw [if_pos ⟨ha, hs⟩, if_neg hThink, hacc]

lemma foldl_callback_taskResults (ws : List (Payload × Nat)) :
    ∀ g : Gst,
      (∀ pw ∈ ws, ¬(pw.1.agent.getD "" = "manager" ∧
        (pw.1.status = some "thinking" ∨ pw.1.status = some "idle"))) →
      (ws.foldl (fun s pw => (n8n_callback pw.1 pw.2 s).1) g).taskResults =
        ws.foldl (fun tr pw => accumulateResult pw.1 pw.2 tr) g.taskResults := by
  induction ws with
  | nil => intro g _; rfl
  | cons x xs ih =>
    intro g h
    rw [List.foldl_cons, List.foldl_cons]
    rw [ih ((n8n_callback x.1 x.2 g).1)
        (fun y hy => h y (List.mem_cons_of_mem _ hy))]
    rw [n8n_callback_taskResults x.1 x.2 g (h x (List.mem_cons_self _ _))]

-- ── C7: accumulator reset, consumption and clearing ─────────────────────────

/-- C7: after a manager "thinking" event the accumulator is emptied, so
the worker results present at the next manager "idle" completion are
exactly those accumulated (with de-duplication) from the intervening
callbacks; the idle completion consumes precisely that accumulator
snapshot and clears the accumulator only afterwards. -/
theorem accumulator_reset_and_consumed_once
    (g0 : Gst) (pT pI : Payload) (nowT nowI : Nat) (ws : List (Payload × Nat))
    (hTa : pT.agent.getD "" = "manager") (hTs : pT.status = some "thinking")
    (hIa : pI.agent.getD "" = "manager") (hIs : pI.status = some "idle")
    (hws : ∀ pw ∈ ws, ¬(pw.1.agent.getD "" = "manager" ∧
      (pw.1.status = some "thinking" ∨ pw.1.status = some "idle"))) :
    (ws.foldl (fun s pw => (n8n_callback pw.1 pw.2 s).1)
        (n8n_callback pT nowT g0).1).taskResults =
      ws.foldl (fun tr pw => accumulateResult pw.1 pw.2 tr) [] ∧
    (n8n_callback pI nowI (ws.foldl (fun s pw => (n8n_callback pw.1 pw.2 s).1)
        (n8n_callback pT nowT g0).1)).2.2 =
      some (ws.foldl (fun tr pw => accumulateResult pw.1 pw.2 tr) []) ∧
    (n8n_callback pI nowI (ws.foldl (fun s pw => (n8n_callback pw.1 pw.2 s).1)
        (n8n_callback pT nowT g0).1)).1.taskResults = [] := by
  have h1 : (n8n_callback pT nowT g0).1.taskResults = [] :=
    n8n_callback_thinking_clears pT nowT g0 hTa hTs
  have h2 := foldl_callback_taskResults ws (n8n_callback pT nowT g0).1 hws
  rw [h1] at h2
  refine ⟨h2, ?_, ?_⟩
  · rw [(n8n_callback_idle_consumes pI nowI _ hIa hIs).1, h2]
  · exact (n8n_callback_idle_consumes pI nowI _ hIa hIs).2

/-- Concrete inputs for the accumulator theorem: a thinking event, one
worker "done" callback, then idle. -/
def c7think : Payload := { agent := some "manager", status := some "thinking" }

def c7idle : Payload := { agent := some "manager", status := some "idle" }

def c7worker : Payload :=
  { agent := some "coder", status := some "done", message := some "готово" }

theorem accumulator_reset_witness :
    ([(c7worker, 5)].foldl (fun s pw => (n8n_callback pw.1 pw.2 s).1)
        (n8n_callback c7think 1 { sm := {} }).1).taskResults =
      [(c7worker, 5)].foldl (fun tr pw => accumulateResult pw.1 pw.2 tr) [] ∧
    (n8n_callback c7idle 9 ([(c7worker, 5)].foldl
        (fun s pw => (n8n_callback pw.1 pw.2 s).1)
        (n8n_callback c7think 1 { sm := {} }).1)).2.2 =
      some ([(c7worker, 5)].foldl (fun tr pw => accumulateResult pw.1 pw.2 tr) []) ∧
    (n8n_callback c7idle 9 ([(c7worker, 5)].foldl
        (fun s pw => (n8n_callback pw.1 pw.2 s).1)
        (n8n_callback c7think 1 { sm := {} }).1)).1.taskResults = [] :=
  accumulator_reset_and_consumed_once { sm := {} } c7think c7idle 1 9
    [(c7worker, 5)] rfl rfl rfl rfl (by decide)

-- ── C6: duplicate worker results are de-duplicated ──────────────────────────

/-- C6: submitting the same (agent, result) callback twice (status
"done", non-manager agent, identical message) within one task cycle
leaves exactly one accumulated entry for that pair. -/
theorem duplicate_worker_result_deduplicated
    (g : Gst) (p : Payload) (now1 now2 : Nat)
    (ha : p.agent.getD "" ≠ "") (hm : p.agent.getD "" ≠ "manager")
    (hs : p.status = some "done") (hmsg : pyStrip (p.message.getD "") ≠ "")
    (h0 : g.taskResults.countP (fun r =>
        r.agent == p.agent.getD "" && r.result == pyStrip (p.message.getD "")) = 0) :
    ((n8n_callback p now2 (n8n_callback p now1 g).1).1).taskResults.countP
        (fun r => r.agent == p.agent.getD "" &&
                  r.result == pyStrip (p.message.getD "")) = 1 := by
  have hmgr : ¬(p.agent.getD "" = "manager" ∧
      (p.status = some "thinking" ∨ p.status = some "idle")) :=
    fun h => hm h.1
  rw [n8n_callback_taskResults p now2 _ hmgr,
      n8n_callback_taskResults p now1 g hmgr]
  have hguard : p.agent.getD "" ≠ "" ∧ p.agent.getD "" ≠ "manager" ∧
      p.status = some "done" ∧ pyStrip (p.message.getD "") ≠ "" :=
    ⟨ha, hm, hs, hmsg⟩
  have hany1 : (g.taskResults.any (fun r =>
      r.agent == p.agent.getD "" &&
      r.result == pyStrip (p.message.getD ""))) = false := by
    rw [Bool.eq_false_iff]
    intro hcontra
    rw [List.any_eq_true] at hcontra
    rcases hcontra with ⟨x, hx, hpx⟩
    exact List.countP_eq_zero.mp h0 x hx hpx
  have step1 : accumulateResult p now1 g.taskResults =
      g.taskResults ++ [({ agent := p.agent.getD "",
                           result := pyStrip (p.message.getD ""),
                           timestamp := now1 } : TaskRes)] := by
    unfold accumulateResult
    rw [if_pos hguard, if_neg (by simp [hany1])]
  rw [step1]
  have hany2 : ((g.taskResults ++ [({ agent := p.agent.getD "",
                                       result := pyStrip (p.message.getD ""),
                                       timestamp := now1 } : TaskRes)]).any
      (fun r => r.agent == p.agent.getD "" &&
                r.result == pyStrip (p.message.getD ""))) = true := by
    rw [List.any_append]
    simp
  have step2 : accumulateResult p now2 (g.taskResults ++
      [({ agent := p.agent.getD "", result := pyStrip (p.message.getD ""),
          timestamp := now1 } : TaskRes)]) =
      g.taskResults ++ [({ agent := p.agent.getD "",
                           result := pyStrip (p.message.getD ""),
                           timestamp := now1 } : TaskRes)] := by
    unfold accumulateResult
    rw [if_pos hguard, if_pos hany2]
  rw [step2, List.countP_append, h0]
  simp

/-- Concrete inputs for the de-duplication theorem. -/
theorem duplicate_worker_result_witness :
    ((n8n_callback c7worker 4 (n8n_callback c7worker 3 { sm := {} }).1).1).taskResults.countP
        (fun r => r.agent == c7worker.agent.getD "" &&
                  r.result == pyStrip (c7worker.message.getD "")) = 1 :=
  duplicate_worker_result_deduplicated { sm := {} } c7worker 3 4
    (by decide) (by decide) rfl (by decide) (by decide)

-- ── C5: unknown agent keys ──────────────────────────────────────────────────

/-- C5 (counterexample): the claim says a payload with an unknown agent
key is dropped silently with no side effects at all.  In the code only
`apply_callback` returns early: the rest of the endpoint still runs — for
an unknown agent reporting `status=done` with a message, the worker-result
accumulator gains an entry and a diary write is issued. -/
theorem unknown_agent_callback_has_side_effects :
    (lookupAgent ({} : SM).agents "ghost" = none) ∧
    (n8n_callback { agent := some "ghost", status := some "done",
                    message := some "hi" } 3 { sm := {} }).1.sm.agents =
      ({} : SM).agents ∧
    (n8n_callback { agent := some "ghost", status := some "done",
                    message := some "hi" } 3 { sm := {} }).1.taskResults =
      [{ agent := "ghost", result := "hi", timestamp := 3 }] ∧
    Ev.diaryEntry "ghost" "status_change" "hi" ∈
      (n8n_callback { agent := some "ghost", status := some "done",
                      message := some "hi" } 3 { sm := {} }).2.1 := by
  refine ⟨rfl, rfl, ?_, ?_⟩ <;> decide

/-- C5 (amended): a callback payload whose agent key is not in the
catalogue leaves the agent states and the chat history unchanged and
emits no `agent_update` and no `chat` broadcast, but the remaining
ingestion steps (diary, lessons, error persistence, quest creation,
result accumulation, Telegram notification) still run. -/
theorem unknown_agent_no_state_change_no_ws_broadcast
    (g : Gst) (p : Payload) (now : Nat)
    (h : lookupAgent g.sm.agents (p.agent.getD "") = none) :
    (n8n_callback p now g).1.sm.agents = g.sm.agents ∧
    (n8n_callback p now g).1.sm.history = g.sm.history ∧
    ∀ e ∈ (n8n_callback p now g).2.1,
      e.isAgentUpdate = false ∧ e.isChat = false := by
  have hac := apply_callback_unknown p now g.sm h
  unfold n8n_callback
  rw [hac]
  dsimp only
  split
  · refine ⟨?_, ?_, ?_⟩
    · rw [(callbackIdleCompletion_preserves _ _ _ _ _).1,
          (callbackQuestStep_preserves _ _ _ _ _).1,
          (callbackErrorStep_preserves _ _ _).1]
    · rw [(callbackIdleCompletion_preserves _ _ _ _ _).2,
          (callbackQuestStep_preserves _ _ _ _ _).2,
          (callbackErrorStep_preserves _ _ _).2]
    · intro e he
      simp only [List.nil_append, List.mem_append] at he
      rcases he with ((((he | he) | he) | he) | he) | he
      · have hh := maybe_notify_tg_events p e he
        exact ⟨hh.2.2.1, hh.2.2.2⟩
      · have hh := callbackDiaryEvents_events _ _ e he
        exact ⟨hh.2.2.1, hh.2.2.2⟩
      · have hh := lessonsEvents_events _ _ e he
        exact ⟨hh.2.2.1, hh.2.2.2⟩
      · have hh := callbackErrorStep_events _ _ _ e he
        exact ⟨hh.2.2.1, hh.2.2.2⟩
      · have hh := callbackQuestStep_events _ _ _ _ _ e he
        exact ⟨hh.2.1, hh.2.2⟩
      · exact callbackIdleCompletion_events _ _ _ _ _ e he
  · refine ⟨?_, ?_, ?_⟩
    · rw [(callbackQuestStep_preserves _ _ _ _ _).1,
          (callbackErrorStep_preserves _ _ _).1]
    · rw [(callbackQuestStep_preserves _ _ _ _ _).2,
          (callbackErrorStep_preserves _ _ _).2]
    · intro e he
      simp only [List.nil_append, List.mem_append] at he
      rcases he with (((he | he) | he) | he) | he
      · have hh := maybe_notify_tg_events p e he
        exact ⟨hh.2.2.1, hh.2.2.2⟩
      · have hh := callbackDiaryEvents_events _ _ e he
        exact ⟨hh.2.2.1, hh.2.2.2⟩
      · have hh := lessonsEvents_events _ _ e he
        exact ⟨hh.2.2.1, hh.2.2.2⟩
      · have hh := callbackErrorStep_events _ _ _ e he
        exact ⟨hh.2.2.1, hh.2.2.2⟩
      · have hh := callbackQuestStep_events _ _ _ _ _ e he
        exact ⟨hh.2.1, hh.2.2⟩

theorem unknown_agent_no_state_change_witness :
    (n8n_callback { agent := some "ghost", status := some "quest",
                    message := some "m" } 7 { sm := {} }).1.sm.agents =
      ({} : SM).agents ∧
    (n8n_callback { agent := some "ghost", status := some "quest",
                    message := some "m" } 7 { sm := {} }).1.sm.history =
      ({} : SM).history ∧
    ∀ e ∈ (n8n_callback { agent := some "ghost", status := some "quest",
                          message := some "m" } 7 { sm := {} }).2.1,
      e.isAgentUpdate = false ∧ e.isChat = false :=
  unknown_agent_no_state_change_no_ws_broadcast { sm := {} }
    { agent := some "ghost", status := some "quest", message := some "m" } 7
    (by decide)

-- ── C1: pending_review write precedes quest creation ───────────────────────

lemma callbackIdleCompletion_trace (p : Payload) (message : String)
    (now : Nat) (tr2 : List TaskRes) (sm3 : SM) :
    ∃ result : ResultPayload,
      (callbackIdleCompletion p message now tr2 sm3).2 =
        (link_result_to_scheduled_task sm3 result now).2 ++
        (notify_user_task_done
          (link_result_to_scheduled_task sm3 result now).1 result now).2 := by
  unfold callbackIdleCompletion
  simp only [ResultPayload.isBlank, Bool.not_false, if_true]
  exact ⟨_, rfl⟩

lemma n8n_callback_idle_trace (p : Payload) (now : Nat) (g : Gst)
    (ha : p.agent.getD "" = "manager") (hs : p.status = some "idle") :
    ∃ pre post,
      (n8n_callback p now g).2.1 = pre ++ post ∧
      (∀ e ∈ pre, e.isQuestCreated = false) ∧
      (∀ e ∈ post, e.isSchedWrite = false) := by
  obtain ⟨res, hres⟩ := callbackIdleCompletion_trace p
    (pyStrip (p.message.getD ""))
    now (if p.agent.getD "" = "manager" ∧ p.status = some "thinking" then []
         else accumulateResult p now g.taskResults)
    ((callbackQuestStep p (p.agent.getD "") (pyStrip (p.message.getD "")) now
        (callbackErrorStep p (p.agent.getD "")
          (StateManager.apply_callback p now g.sm).1).1).1)
  simp only [n8n_callback]
  rw [if_pos ⟨ha, hs⟩, hres]
  refine ⟨(StateManager.apply_callback p now g.sm).2 ++ maybe_notify_tg p ++
      callbackDiaryEvents (p.agent.getD "") (pyStrip (p.message.getD "")) ++
      lessonsEvents p (p.agent.getD "") ++
      (callbackErrorStep p (p.agent.getD "")
        (StateManager.apply_callback p now g.sm).1).2 ++
      (callbackQuestStep p (p.agent.getD "") (pyStrip (p.message.getD "")) now
        (callbackErrorStep p (p.agent.getD "")
          (StateManager.apply_callback p now g.sm).1).1).2 ++
      (link_result_to_scheduled_task
        (callbackQuestStep p (p.agent.getD "") (pyStrip (p.message.getD "")) now
          (callbackErrorStep p (p.agent.getD "")
            (StateManager.apply_callback p now g.sm).1).1).1 res now).2,
    (notify_user_task_done
      (link_result_to_scheduled_task
        (callbackQuestStep p (p.agent.getD "") (pyStrip (p.message.getD "")) now
          (callbackErrorStep p (p.agent.getD "")
            (StateManager.apply_callback p now g.sm).1).1).1 res now).1 res now).2,
    by simp [List.append_assoc], ?_, ?_⟩
  · intro e he
    simp only [List.mem_append] at he
    rcases he with (((((he | he) | he) | he) | he) | he) | he
    · exact (apply_callback_events p now g.sm e he).1
    · exact (maybe_notify_tg_events p e he).1
    · exact (callbackDiaryEvents_events _ _ e he).1
    · exact (lessonsEvents_events _ _ e he).1
    · exact (callbackErrorStep_events _ _ _ e he).1
    · rw [callbackQuestStep_not_idle _ _ _ _ _ hs] at he
      simp at he
    · exact (link_events _ _ _ e he).1
  · intro e he
    exact (notify_events _ _ _ e he).1

/-- C1: in every execution of the manager-idle completion branch, the
scheduled-task write (the update that sets status "done" with
review_status "pending_review") is fully performed before any
quest-created broadcast: no `questCreated` event precedes any
`updateScheduled` write in the emitted trace.  The two steps are awaited
sequentially (link, then notify), never run concurrently. -/
theorem idle_completion_pending_review_before_quests
    (g : Gst) (p : Payload) (now : Nat)
    (ha : p.agent.getD "" = "manager") (hs : p.status = some "idle")
    (i j : Nat)
    (hq : (((n8n_callback p now g).2.1.get? i).map Ev.isQuestCreated) = some true)
    (hu : (((n8n_callback p now g).2.1.get? j).map Ev.isSchedWrite) = some true) :
    j < i := by
  obtain ⟨pre, post, htr, hpre, hpost⟩ := n8n_callback_idle_trace p now g ha hs
  rw [htr] at hq hu
  by_cases hi : i < pre.length
  · exfalso
    rw [List.get?_append hi] at hq
    rcases ho : pre.get? i with _ | e
    · rw [ho] at hq; cases hq
    · rw [ho] at hq
      have hq2 : e.isQuestCreated = true := by simpa using hq
      have hfalse := hpre e (List.get?_mem ho)
      rw [hfalse] at hq2
      cases hq2
  · push_neg at hi
    by_cases hj : j < pre.length
    · omega
    · exfalso
      push_neg at hj
      rw [List.get?_append_right hj] at hu
      rcases ho : post.get? (j - pre.length) with _ | e
      · rw [ho] at hu; cases hu
      · rw [ho] at hu
        have hu2 : e.isSchedWrite = true := by simpa using hu
        have hfalse := hpost e (List.get?_mem ho)
        rw [hfalse] at hu2
        cases hu2

/-- Concrete state for the ordering witness: one `in_progress` scheduled
task, so the idle completion performs the pending_review write (index 2
of the trace) before creating the review quest (index 5). -/
def c1db : Db :=
  { scheduled := [{ id := 7, title := "Сайт", status := "in_progress",
                    created_at := 1 }] }

def c1g : Gst := { sm := { db := some c1db } }

theorem idle_completion_ordering_witness :
    ((((n8n_callback c7idle 0 c1g).2.1.get? 5).map Ev.isQuestCreated) = some true) ∧
    ((((n8n_callback c7idle 0 c1g).2.1.get? 2).map Ev.isSchedWrite) = some true) ∧
    2 < 5 :=
  ⟨by decide, by decide,
   idle_completion_pending_review_before_quests c1g c7idle 0 rfl rfl 5 2
     (by decide) (by decide)⟩

-- ── C9: quest-type coercion in callback vs rejection in endpoint ────────────

lemma not_mem_of_contains_false (l : List String) (x : String)
    (h : l.contains x = false) : x ∉ l := by
  intro hmem
  have hc : l.contains x = true := by
    rw [List.contains_iff_exists_mem_beq]
    exact ⟨x, hmem, by simp⟩
  rw [h] at hc
  cases hc

lemma applyMsgBranch_db (p : Payload) (now : Nat) (key : String)
    (a3 : AgentState) (sm1 : SM) :
    (applyMsgBranch p now key a3 sm1).1.db = sm1.db := by
  unfold applyMsgBranch
  dsimp only
  split <;> rfl

lemma applyErrBranch_not_error (p : Payload) (taskId : Option Nat) (sm2 : SM)
    (h : p.status ≠ some "error") :
    applyErrBranch p taskId sm2 = (sm2, []) := by
  unfold applyErrBranch
  split
  · simp_all
  · rfl

lemma applyIdleBranch_not_idle (p : Payload) (now : Nat) (key : String)
    (taskId ideaId : Option Nat) (sm3 : SM)
    (h : ¬(key = "manager" ∧ p.status = some "idle")) :
    applyIdleBranch p now key taskId ideaId sm3 = (sm3, []) := by
  unfold applyIdleBranch
  rw [if_neg h]

lemma apply_callback_db (p : Payload) (now : Nat) (sm : SM)
    (h1 : p.status ≠ some "error")
    (h2 : ¬(p.agent.getD "" = "manager" ∧ p.status = some "idle")) :
    (StateManager.apply_callback p now sm).1.db = sm.db := by
  unfold StateManager.apply_callback
  dsimp only
  split
  · rfl
  · rw [applyIdleBranch_not_idle _ _ _ _ _ _ h2,
        applyErrBranch_not_error _ _ _ h1]
    exact applyMsgBranch_db _ _ _ _ _

lemma callbackErrorStep_none (p : Payload) (agent : String) (sm1 : SM)
    (h : p.error_detail = none) :
    callbackErrorStep p agent sm1 = (sm1, []) := by
  unfold callbackErrorStep
  rw [h]

/-- C9: a callback payload with `status = "quest"` and a quest type
outside the valid set is not rejected: the quest type is silently coerced
to `"info"`, the quest row is created and a `quest_created` broadcast is
emitted; by contrast `POST /api/quests` rejects an invalid quest type
with a 400 response and no state change. -/
theorem quest_type_coerced_in_callback_rejected_in_endpoint
    (g : Gst) (p : Payload) (now : Nat) (d : Db)
    (hdb : g.sm.db = some d) (hs : p.status = some "quest")
    (hed : p.error_detail = none)
    (hqt : VALID_QUEST_TYPES.contains (p.quest_type.getD "info") = false) :
    (∃ q : QuestRow, q.quest_type = "info" ∧
      Ev.questCreated q ∈ (n8n_callback p now g).2.1 ∧
      ((n8n_callback p now g).1.sm.db.getD {}).quests = d.quests ++ [q]) ∧
    (∀ (g2 : Gst) (b : QuestBody) (now2 : Nat) (qt : String),
      b.quest_type = some qt →
      VALID_QUEST_TYPES.contains qt = false →
      pyStrip (b.title.getD "") ≠ "" →
      api_create_quest g2 b now2 = (g2, 400, none)) := by
  constructor
  · have hidle : ¬(p.agent.getD "" = "manager" ∧ p.status = some "idle") := by
      simp [hs]
    have hacdb : (StateManager.apply_callback p now g.sm).1.db = some d := by
      rw [apply_callback_db p now g.sm (by simp [hs]) hidle, hdb]
    have herr := callbackErrorStep_none p (p.agent.getD "")
      (StateManager.apply_callback p now g.sm).1 hed
    have hquest : callbackQuestStep p (p.agent.getD "")
        (pyStrip (p.message.getD "")) now
        (StateManager.apply_callback p now g.sm).1 =
        ({ (StateManager.apply_callback p now g.sm).1 with
            db := some ((d.insertQuest (p.quest_title.getD (p.task.getD "Quest"))
              (pyStrip (p.message.getD "")) "info" (p.agent.getD "")
              (safe_int (p.xp_reward.getD (.ok 10)) 10)
              ((p.quest_data).getD {}) now).1) },
         [Ev.questCreated ((d.insertQuest (p.quest_title.getD (p.task.getD "Quest"))
              (pyStrip (p.message.getD "")) "info" (p.agent.getD "")
              (safe_int (p.xp_reward.getD (.ok 10)) 10)
              ((p.quest_data).getD {}) now).2),
          Ev.tgNotifyQuest ((d.insertQuest (p.quest_title.getD (p.task.getD "Quest"))
              (pyStrip (p.message.getD "")) "info" (p.agent.getD "")
              (safe_int (p.xp_reward.getD (.ok 10)) 10)
              ((p.quest_data).getD {}) now).2).id]) := by
      unfold callbackQuestStep
      rw [if_pos hs]
      dsimp only
      rw [hqt]
      rw [if_neg (by simp), hacdb]
      rfl
    refine ⟨(d.insertQuest (p.quest_title.getD (p.task.getD "Quest"))
        (pyStrip (p.message.getD "")) "info" (p.agent.getD "")
        (safe_int (p.xp_reward.getD (.ok 10)) 10)
        ((p.quest_data).getD {}) now).2, rfl, ?_, ?_⟩
    · simp only [n8n_callback]
      rw [if_neg hidle]
      dsimp only
      rw [herr]
      dsimp only
      rw [hquest]
      simp
    · simp only [n8n_callback]
      rw [if_neg hidle]
      dsimp only
      rw [herr]
      dsimp only
      rw [hquest]
      rfl
  · intro g2 b now2 qt hbt hv ht
    unfold api_create_quest
    rw [if_neg ht, if_pos ?_]
    simp only [hbt, Option.getD_some]
    simp
    exact not_mem_of_contains_false _ _ hv

/-- Concrete inputs for the coercion/rejection theorem. -/
def c9p : Payload :=
  { agent := some "coder", status := some "quest",
    quest_type := some "banana", message := some "нужен токен" }

def c9g : Gst := { sm := { db := some {} } }

theorem quest_type_coerced_witness :
    (∃ q : QuestRow, q.quest_type = "info" ∧
      Ev.questCreated q ∈ (n8n_callback c9p 0 c9g).2.1 ∧
      ((n8n_callback c9p 0 c9g).1.sm.db.getD {}).quests = ({} : Db).quests ++ [q]) ∧
    (∀ (g2 : Gst) (b : QuestBody) (now2 : Nat) (qt : String),
      b.quest_type = some qt →
      VALID_QUEST_TYPES.contains qt = false →
      pyStrip (b.title.getD "") ≠ "" →
      api_create_quest g2 b now2 = (g2, 400, none)) :=
  quest_type_coerced_in_callback_rejected_in_endpoint c9g c9p 0 {}
    rfl rfl rfl (by decide)

/-- C8 (counterexample): the claim promises that completing both
`user_action` quests of one task forwards a synthesized task containing
*both* collected responses.  Responses are collected into a dict keyed by
`input_label`, so two quests with the same label (as every clarification
quest has) collapse: with responses "AAA" then "BBB" the forwarded task
contains "BBB" but not "AAA". -/
theorem phase2_duplicate_label_drops_response :
    (((api_complete_quest c8g 1 (some "AAA") 10).2.1.filter Ev.isPostWebhook) = []) ∧
    (((api_complete_quest (api_complete_quest c8g 1 (some "AAA") 10).1 2
        (some "BBB") 11).2.1.filter Ev.isPostWebhook).length = 1) ∧
    (((api_complete_quest (api_complete_quest c8g 1 (some "AAA") 10).1 2
        (some "BBB") 11).2.1.filter Ev.isPostWebhook).all (fun e =>
          match e with
          | .postWebhook s _ => strContainsB "BBB" s && !(strContainsB "AAA" s)
          | _ => false) = true) := by
  refine ⟨?_, ?_, ?_⟩ <;> decide

theorem api_task_rejects_witness :
    (pyStrip (((some "   " : Option String)).getD "") = "" ∨
      5000 < (pyStrip (((some "   " : Option String)).getD "")).length) ∧
    api_task { sm := {} } (some "   ") 0 = ({ sm := {} }, [], 400) :=
  ⟨Or.inl (by decide),
   api_task_rejects_invalid_content_unchanged { sm := {} } (some "   ") 0 (Or.inl (by decide))⟩


-- C8 amended: with distinct input labels both responses survive collection.

lemma strContains_self (x : String) : strContains x x :=
  List.infix_rfl

lemma strContains_append_left (x a b : String) (h : strContains x a) :
    strContains x (a ++ b) := by
  have hab : a.data <:+: (a ++ b).data := by
    rw [String.data_append]
    exact (List.prefix_append a.data b.data).isInfix
  exact List.IsInfix.trans h hab

lemma strContains_append_right (x a b : String) (h : strContains x b) :
    strContains x (a ++ b) := by
  have hab : b.data <:+: (a ++ b).data := by
    rw [String.data_append]
    exact (List.suffix_append a.data b.data).isInfix
  exact List.IsInfix.trans h hab

lemma strContains_r1_phase2 (o l1 r1 l2 r2 : String) :
    strContains r1 (phase2Text o l1 r1 l2 r2) := by
  unfold phase2Text
  exact strContains_append_left _ _ _ (strContains_append_left _ _ _
    (strContains_append_left _ _ _ (strContains_append_right _ _ _
      (strContains_append_left _ _ _ (strContains_append_left _ _ _
        (strContains_append_right _ _ _ (strContains_self r1)))))))

lemma strContains_r2_phase2 (o l1 r1 l2 r2 : String) :
    strContains r2 (phase2Text o l1 r1 l2 r2) := by
  unfold phase2Text
  exact strContains_append_left _ _ _ (strContains_append_left _ _ _
    (strContains_append_left _ _ _ (strContains_append_right _ _ _
      (strContains_append_right _ _ _
        (strContains_append_right _ _ _ (strContains_self r2))))))

/-- C8 (amended): when the two pending `user_action` quests of a scheduled
task carry *distinct* `input_label`s, completing the first forwards
nothing, and completing the second forwards exactly one Phase-2 task whose
text contains both collected responses. -/
theorem phase2_trigger_both_quests_forward_once
    (g : Gst) (d0 : Db) (t : Nat) (w1 w2 l1 l2 r1 r2 : String)
    (c1 c2 n1 n2 : Nat)
    (hdb : g.sm.db = some d0)
    (hweb : g.hasWebhook = true)
    (hqs : d0.quests = [mkUAQuest 1 t w1 l1 c1, mkUAQuest 2 t w2 l2 c2])
    (ht : ¬ t = 0) (hl : ¬ l1 = l2) (hr1 : ¬ r1 = "") (hr2 : ¬ r2 = "")
    (hcl1 : is_clarification_needed (some r1) = false)
    (hcl2 : is_clarification_needed (some r2) = false) :
    (api_complete_quest g 1 (some r1) n1).2.1.filter Ev.isPostWebhook = [] ∧
    ∃ s : String,
      (api_complete_quest (api_complete_quest g 1 (some r1) n1).1 2
          (some r2) n2).2.1.filter Ev.isPostWebhook = [Ev.postWebhook s none] ∧
      strContains r1 s ∧ strContains r2 s := by
  have e1 : api_complete_quest g 1 (some r1) n1 =
      ({ g with sm := { g.sm with db := some { d0 with quests :=
            [mkUAQuestDone 1 t w1 l1 c1 r1 n1, mkUAQuest 2 t w2 l2 c2] } } },
        [], 200) := by
    simp +decide [api_complete_quest, StateManager.complete_quest,
      Db.completeQuest, check_phase2_trigger, hdb, hqs, hcl1,
      mkUAQuest, mkUAQuestDone, ht]
  constructor
  · rw [e1]
    rfl
  · rcases hsc : (d0.scheduled.filter (fun r => r.id == t)).head? with _ | row
    · refine ⟨phase2Text "Задача" l1 r1 l2 r2, ?_,
        strContains_r1_phase2 _ _ _ _ _, strContains_r2_phase2 _ _ _ _ _⟩
      rw [e1]
      simp +decide [api_complete_quest, StateManager.complete_quest,
        Db.completeQuest, check_phase2_trigger, hcl2, mkUAQuest, mkUAQuestDone,
        ht, hl, hr1, hr2, hsc, hweb, phase2Text, pyJoin, dictInsert,
        Ev.isPostWebhook]
      congr 1
    · refine ⟨phase2Text row.title l1 r1 l2 r2, ?_,
        strContains_r1_phase2 _ _ _ _ _, strContains_r2_phase2 _ _ _ _ _⟩
      rw [e1]
      simp +decide [api_complete_quest, StateManager.complete_quest,
        Db.completeQuest, check_phase2_trigger, hcl2, mkUAQuest, mkUAQuestDone,
        ht, hl, hr1, hr2, hsc, hweb, phase2Text, pyJoin, dictInsert,
        Ev.isPostWebhook]

theorem phase2_trigger_both_quests_forward_once_witness :
    (api_complete_quest c8g2 1 (some "AAA") 10).2.1.filter Ev.isPostWebhook = [] ∧
    ∃ s : String,
      (api_complete_quest (api_complete_quest c8g2 1 (some "AAA") 10).1 2
          (some "BBB") 11).2.1.filter Ev.isPostWebhook = [Ev.postWebhook s none] ∧
      strContains "AAA" s ∧ strContains "BBB" s :=
  phase2_trigger_both_quests_forward_once c8g2 c8db2 5 "Q1" "Q2" "логин" "пароль"
    "AAA" "BBB" 1 2 10 11 rfl rfl rfl (by decide) (by decide) (by decide)
    (by decide) (by decide) (by decide)


end AgentOffice
